import Mathlib

/-!
Shallow embedding of the periop-calculators library (TypeScript) and proofs
about its four risk calculators: RCRI (src/calculators/rcri.ts), STOP-BANG
(src/calculators/stop-bang.ts), Apfel (src/calculators/apfel.ts), MELD
(src/calculators/meld.ts), together with the shared validation utilities
(src/utils/validation.ts) and error types (src/types/index.ts,
src/utils/errors.ts).

Modelling conventions:
* JavaScript numbers are modelled as rationals (ℚ); the MELD formula, which
  uses Math.log, is modelled over the reals (ℝ) with Real.log (Math.round is
  round, Math.floor is Int.floor; both agree with the JS semantics on the
  values arising here).
* Loosely typed values inspected by `typeof` checks are modelled by JSValue.
* A thrown exception is modelled as Except.error; the thrown value is the
  CalculatorError class instance (modelled by CalculatorException) for the
  MELD and Apfel calculators and a plain message string for STOP-BANG, which
  throws `new Error(...)`.
* String.prototype.toLowerCase and String.prototype.includes are modelled by
  strToLower (ASCII case folding, which is exact on the inputs considered)
  and containsSubstr.
-/

namespace Periop

/-! ### JavaScript value and string helpers -/

/-- Model of a loosely typed JavaScript value, as far as the validation code
inspects one with `typeof`: a number, a string, a boolean, or undefined
(which also stands for an absent field). -/
inductive JSValue where
  | num (q : ℚ)
  | str (s : String)
  | bool (b : Bool)
  | undefined
deriving DecidableEq

/-- Numeric value of a JSValue; only applied after validation has established
that the value is a number. -/
def JSValue.numVal : JSValue → ℚ
  | .num q => q
  | _ => 0

/-- JavaScript truthiness of a value (`input.dialysis ? _ : _` and
`input.dialysis || false`); after validation the dialysis flag is undefined
or a boolean, so only the boolean case can be truthy. -/
def JSValue.truthy : JSValue → Bool
  | .num q => q != 0
  | .str s => s != ""
  | .bool b => b
  | .undefined => false

/-- Is this value a number (JavaScript `typeof v === 'number'`)? -/
def JSValue.isNum : JSValue → Bool
  | .num _ => true
  | _ => false

/-- Is this value a boolean (JavaScript `typeof v === 'boolean'`)? -/
def JSValue.isBool : JSValue → Bool
  | .bool _ => true
  | _ => false

/-- JavaScript truthiness of an optional number (`!bmi`,
`neckCircumference ? _ : _`): undefined and 0 are falsy. -/
def truthyNum : Option ℚ → Bool
  | none => false
  | some q => q != 0

/-- ASCII lower-casing of one character, modelling what
String.prototype.toLowerCase does on the ASCII range. -/
def lowerChar (c : Char) : Char :=
  if 65 ≤ c.toNat ∧ c.toNat ≤ 90 then Char.ofNat (c.toNat + 32) else c

/-- Model of String.prototype.toLowerCase (exact on ASCII strings, which is
all the classifier keywords and examples use). -/
def strToLower (s : String) : String := ⟨s.data.map lowerChar⟩

/-- Does the character list contain `pat` as a contiguous sublist? Scans every
suffix for `pat` as a prefix. -/
def listContains (pat : List Char) : List Char → Bool
  | [] => List.isPrefixOf pat []
  | b :: bs => List.isPrefixOf pat (b :: bs) || listContains pat bs

/-- Model of JavaScript String.prototype.includes. -/
def containsSubstr (s pat : String) : Bool := listContains pat.data s.data

theorem listContains_iff (pat l : List Char) : listContains pat l = true ↔ pat <:+: l := by
  induction l with
  | nil =>
    simp [listContains, List.infix_nil, List.isPrefixOf_iff_prefix]
  | cons b bs ih =>
    rw [List.infix_cons_iff]
    simp [listContains, Bool.or_eq_true, List.isPrefixOf_iff_prefix, ih]

theorem containsSubstr_iff (s pat : String) :
    containsSubstr s pat = true ↔ pat.data <:+: s.data :=
  listContains_iff pat.data s.data

/-- Models JavaScript template-literal printing of the nonnegative numbers
this library interpolates into strings: every such number is an integer or
has exactly one decimal digit, an integral number prints with no decimal
point (`${6.0}` is "6"), and otherwise one fractional digit is printed. -/
def jsNumToString (q : ℚ) : String :=
  if q.den = 1 then toString q.num
  else toString ((q * 10).num / 10) ++ "." ++ toString ((q * 10).num % 10)

/-! ### Error shapes (src/types/index.ts and src/utils/errors.ts) -/

/-- The CalculatorError interface of src/types/index.ts:
`{code: string; message: string; field?: string}`; produced by the validation
helpers and aggregated by the STOP-BANG calculator. -/
structure CalculatorError where
  code : String
  message : String
  field : Option String
deriving DecidableEq

/-- The CalculatorError class of src/utils/errors.ts (renamed here to avoid
the clash with the interface of the same name): `constructor(message, code?,
field?)`, so code and field are optional and absent unless passed. This is
the value thrown by the MELD and Apfel calculators. -/
structure CalculatorException where
  message : String
  code : Option String := none
  field : Option String := none
deriving DecidableEq

/-- The ValidationResult interface of src/types/index.ts. -/
structure ValidationResult where
  isValid : Bool
  errors : List CalculatorError
deriving DecidableEq

/-! ### RCRI calculator (src/calculators/rcri.ts) -/

/-- RCRIInput: six independent boolean risk factors. -/
structure RCRIInput where
  highRiskSurgery : Bool
  ischemicHeartDisease : Bool
  congestiveHeartFailure : Bool
  cerebrovascularDisease : Bool
  insulinDependentDiabetes : Bool
  renalInsufficiency : Bool
deriving DecidableEq, Fintype

/-- The RCRI risk classification enumeration 'I' | 'II' | 'III' | 'IV'. -/
inductive RCRIClass where
  | I
  | II
  | III
  | IV
deriving DecidableEq, Fintype

/-- String literal of an RCRI risk class. -/
def RCRIClass.str : RCRIClass → String
  | .I => "I"
  | .II => "II"
  | .III => "III"
  | .IV => "IV"

/-- Position of an RCRI class in the documented low-to-high risk order. -/
def RCRIClass.ord : RCRIClass → ℕ
  | .I => 0
  | .II => 1
  | .III => 2
  | .IV => 3

/-- RCRIResult (risk factors are echoed in a record with the same six
fields, so the echo is typed as RCRIInput). -/
structure RCRIResult where
  score : ℕ
  riskClass : RCRIClass
  estimatedRisk : String
  riskPercentage : ℚ
  interpretation : String
  riskFactors : RCRIInput
  recommendations : List String
deriving DecidableEq

/-- The score accumulation of calculateRCRI: `let score = 0` followed by six
`if (input.X) score++` statements. -/
def rcriScore (input : RCRIInput) : ℕ :=
  (if input.highRiskSurgery then 1 else 0) +
  (if input.ischemicHeartDisease then 1 else 0) +
  (if input.congestiveHeartFailure then 1 else 0) +
  (if input.cerebrovascularDisease then 1 else 0) +
  (if input.insulinDependentDiabetes then 1 else 0) +
  (if input.renalInsufficiency then 1 else 0)

/-- The generateInterpretation helper of rcri.ts. -/
def rcriInterpretation (score : ℕ) (riskClass : RCRIClass) (estimatedRisk : String) : String :=
  let cls := riskClass.str
  if score = 0 then
    s!"RCRI Class {cls} with no risk factors identified. Estimated risk of major cardiac complications is {estimatedRisk}. This represents very low cardiac risk."
  else if score = 1 then
    s!"RCRI Class {cls} with 1 risk factor. Estimated risk of major cardiac complications is {estimatedRisk}. This represents low cardiac risk."
  else if score = 2 then
    s!"RCRI Class {cls} with 2 risk factors. Estimated risk of major cardiac complications is {estimatedRisk}. This represents intermediate cardiac risk."
  else
    s!"RCRI Class {cls} with {score} risk factors. Estimated risk of major cardiac complications is {estimatedRisk}. This represents high cardiac risk."

/-- The generateRecommendations helper of rcri.ts. -/
def rcriRecommendations (score : ℕ) (input : RCRIInput) : List String :=
  (if score = 0 then
    ["Proceed with surgery with standard perioperative care",
     "No additional cardiac testing indicated based on RCRI alone"]
  else if score = 1 then
    ["Consider perioperative beta-blockade if not already prescribed",
     "Ensure optimal medical management of cardiac risk factors"]
  else if score = 2 then
    ["Consider cardiology consultation for perioperative risk assessment",
     "Optimize medical management before elective surgery",
     "Consider non-invasive cardiac testing if it will change management"]
  else
    ["Strongly consider cardiology consultation before surgery",
     "Consider additional cardiac testing (stress test, echo) if results would change management",
     "Optimize all modifiable risk factors before elective surgery",
     "Consider perioperative beta-blockade and statin therapy"]) ++
  (if input.congestiveHeartFailure then
    ["Optimize heart failure management preoperatively",
     "Consider echocardiography to assess current cardiac function"] else []) ++
  (if input.ischemicHeartDisease then
    ["Ensure patient is on appropriate antiplatelet therapy considering surgical bleeding risk",
     "Continue statin therapy perioperatively"] else []) ++
  (if input.insulinDependentDiabetes then
    ["Optimize glycemic control perioperatively",
     "Monitor for diabetic complications"] else []) ++
  (if input.renalInsufficiency then
    ["Avoid nephrotoxic medications",
     "Consider nephrology consultation for perioperative management",
     "Monitor volume status carefully"] else []) ++
  (if input.cerebrovascularDisease then
    ["Consider carotid evaluation if symptomatic",
     "Maintain adequate blood pressure perioperatively"] else []) ++
  ["Monitor for signs of cardiac complications postoperatively"]

/-- calculateRCRI of rcri.ts. No validation is performed: the input is six
booleans and the function is total. -/
def calculateRCRI (input : RCRIInput) : RCRIResult :=
  let score := rcriScore input
  let riskClass : RCRIClass :=
    if score = 0 then .I else if score = 1 then .II else if score = 2 then .III else .IV
  let estimatedRisk : String :=
    if score = 0 then "0.4%" else if score = 1 then "0.9%"
    else if score = 2 then "6.6%" else "≥11%"
  let riskPercentage : ℚ :=
    if score = 0 then 0.4 else if score = 1 then 0.9
    else if score = 2 then 6.6 else 11
  { score := score
    riskClass := riskClass
    estimatedRisk := estimatedRisk
    riskPercentage := riskPercentage
    interpretation := rcriInterpretation score riskClass estimatedRisk
    riskFactors :=
      { highRiskSurgery := input.highRiskSurgery
        ischemicHeartDisease := input.ischemicHeartDisease
        congestiveHeartFailure := input.congestiveHeartFailure
        cerebrovascularDisease := input.cerebrovascularDisease
        insulinDependentDiabetes := input.insulinDependentDiabetes
        renalInsufficiency := input.renalInsufficiency }
    recommendations := rcriRecommendations score input }

/-- The fixed keyword list of isHighRiskSurgery in rcri.ts. -/
def highRiskKeywords : List String :=
  ["intraperitoneal",
   "intrathoracic",
   "suprainguinal vascular",
   "aortic",
   "major vascular",
   "peripheral vascular",
   "thoracic",
   "abdominal",
   "esophagectomy",
   "hepatectomy",
   "pancreatectomy",
   "pneumonectomy"]

/-- isHighRiskSurgery of rcri.ts: lower-case the description and test whether
any keyword occurs in it as a substring. -/
def isHighRiskSurgery (surgeryType : String) : Bool :=
  highRiskKeywords.any fun keyword => containsSubstr (strToLower surgeryType) keyword

/-! ### Apfel calculator (src/calculators/apfel.ts) -/

/-- ApfelScoreInput after validation: four boolean risk factors. -/
structure ApfelScoreInput where
  female : Bool
  nonSmoker : Bool
  historyOfPONV : Bool
  postoperativeOpioids : Bool
deriving DecidableEq, Fintype

/-- The loosely typed object calculateApfelScore actually receives before its
`typeof` validation of each field. -/
structure ApfelRawInput where
  female : JSValue
  nonSmoker : JSValue
  historyOfPONV : JSValue
  postoperativeOpioids : JSValue
deriving DecidableEq

/-- The Apfel risk enumeration 'low' | 'moderate' | 'high' | 'very-high'. -/
inductive ApfelRisk where
  | low
  | moderate
  | high
  | veryHigh
deriving DecidableEq, Fintype

/-- String literal of an Apfel risk category. -/
def ApfelRisk.str : ApfelRisk → String
  | .low => "low"
  | .moderate => "moderate"
  | .high => "high"
  | .veryHigh => "very-high"

/-- The `risk.replace('-', ' ')` rendering used inside the interpretation. -/
def ApfelRisk.desc : ApfelRisk → String
  | .low => "low"
  | .moderate => "moderate"
  | .high => "high"
  | .veryHigh => "very high"

/-- Position of an Apfel risk category in the documented low-to-high order. -/
def ApfelRisk.ord : ApfelRisk → ℕ
  | .low => 0
  | .moderate => 1
  | .high => 2
  | .veryHigh => 3

/-- ApfelScoreResult of src/types/index.ts (risk factor echo typed by the
input record of the same four fields). -/
structure ApfelScoreResult where
  score : ℕ
  riskPercentage : ℚ
  risk : ApfelRisk
  interpretation : String
  riskFactors : ApfelScoreInput
  recommendations : List String
deriving DecidableEq

/-- The field-by-field `typeof input[field] !== 'boolean'` loop of
calculateApfelScore, which throws on the first non-boolean field, in the
order female, nonSmoker, historyOfPONV, postoperativeOpioids. -/
def validateApfelInput : Option ApfelRawInput → Option CalculatorException
  | none => some { message := "Invalid input: ApfelScoreInput object required" }
  | some i =>
    if ¬i.female.isBool then
      some { message := "Invalid input: female must be a boolean value" }
    else if ¬i.nonSmoker.isBool then
      some { message := "Invalid input: nonSmoker must be a boolean value" }
    else if ¬i.historyOfPONV.isBool then
      some { message := "Invalid input: historyOfPONV must be a boolean value" }
    else if ¬i.postoperativeOpioids.isBool then
      some { message := "Invalid input: postoperativeOpioids must be a boolean value" }
    else none

/-- Boolean value of a validated JSValue field. -/
def JSValue.boolVal : JSValue → Bool
  | .bool b => b
  | _ => false

/-- Conversion of a validated raw Apfel input to the four booleans. -/
def ApfelRawInput.resolve (i : ApfelRawInput) : ApfelScoreInput :=
  { female := i.female.boolVal
    nonSmoker := i.nonSmoker.boolVal
    historyOfPONV := i.historyOfPONV.boolVal
    postoperativeOpioids := i.postoperativeOpioids.boolVal }

/-- The score accumulation of calculateApfelScore: four `if (...) score++`. -/
def apfelScore (input : ApfelScoreInput) : ℕ :=
  (if input.female then 1 else 0) +
  (if input.nonSmoker then 1 else 0) +
  (if input.historyOfPONV then 1 else 0) +
  (if input.postoperativeOpioids then 1 else 0)

/-- The riskPercentages lookup table of calculateApfelScore
(`{0: 10, 1: 21, 2: 39, 3: 61, 4: 79}`; scores are always 0-4 so the
lookup never misses). -/
def apfelRiskPercentage (score : ℕ) : ℚ :=
  if score = 0 then 10 else if score = 1 then 21 else if score = 2 then 39
  else if score = 3 then 61 else if score = 4 then 79 else 0

/-- The risk-category if-chain of calculateApfelScore. -/
def apfelRisk (score : ℕ) : ApfelRisk :=
  if score = 0 then .low else if score = 1 then .moderate
  else if score = 2 then .high else .veryHigh

/-- The interpretation sentence of calculateApfelScore. -/
def apfelInterpretation (score : ℕ) (risk : ApfelRisk) (riskPercentage : ℚ) : String :=
  let riskFactorCount := if score = 0 then "no" else toString score
  let riskFactorPlural := if score = 1 then "risk factor" else "risk factors"
  let riskDesc := risk.desc
  let pct := jsNumToString riskPercentage
  s!"Apfel Score of {score} with {riskFactorCount} {riskFactorPlural} indicates {riskDesc} risk for PONV. Estimated incidence: {pct}% chance of experiencing postoperative nausea and vomiting."

/-- The recommendation list built by calculateApfelScore. -/
def apfelRecommendations (score : ℕ) (input : ApfelScoreInput) : List String :=
  (if score = 0 then
    ["Low risk patient - routine PONV prophylaxis may not be necessary",
     "Consider prophylaxis if other risk factors present (e.g., type of surgery)"]
  else if score = 1 then
    ["Consider single-agent PONV prophylaxis",
     "Options include dexamethasone, ondansetron, or droperidol"]
  else if score = 2 then
    ["Recommend dual-agent PONV prophylaxis",
     "Consider combination therapy (e.g., dexamethasone + ondansetron)"]
  else
    ["High-risk patient - recommend multimodal PONV prophylaxis",
     "Consider 3-4 antiemetic agents from different classes",
     "Consider total intravenous anesthesia (TIVA) with propofol"] ++
    (if input.postoperativeOpioids then
      ["Consider regional anesthesia or non-opioid analgesics to reduce opioid requirements"]
    else [])) ++
  ["Monitor for PONV in PACU and postoperative period",
   "Have rescue antiemetics readily available"]

/-- The post-validation body of calculateApfelScore. -/
def apfelBuild (input : ApfelScoreInput) : ApfelScoreResult :=
  let score := apfelScore input
  let riskPercentage := apfelRiskPercentage score
  let risk := apfelRisk score
  { score := score
    riskPercentage := riskPercentage
    risk := risk
    interpretation := apfelInterpretation score risk riskPercentage
    riskFactors :=
      { female := input.female
        nonSmoker := input.nonSmoker
        historyOfPONV := input.historyOfPONV
        postoperativeOpioids := input.postoperativeOpioids }
    recommendations := apfelRecommendations score input }

/-- calculateApfelScore of apfel.ts: validate (throwing a CalculatorError
carrying only a message on the first failure), then score. -/
def calculateApfelScore (input : Option ApfelRawInput) :
    Except CalculatorException ApfelScoreResult :=
  match validateApfelInput input, input with
  | some e, _ => .error e
  | none, none => .error { message := "Invalid input: ApfelScoreInput object required" }
  | none, some i => .ok (apfelBuild i.resolve)

/-! ### STOP-BANG calculator (src/calculators/stop-bang.ts and
src/utils/validation.ts) -/

/-- The gender enumeration 'male' | 'female'. -/
inductive Gender where
  | male
  | female
deriving DecidableEq

/-- StopBangInput of src/types/index.ts: four required booleans plus optional
bmi, age, neckCircumference and gender. -/
structure StopBangInput where
  snoring : Bool
  tiredness : Bool
  observed : Bool
  pressure : Bool
  bmi : Option ℚ := none
  age : Option ℚ := none
  neckCircumference : Option ℚ := none
  gender : Option Gender := none
deriving DecidableEq

/-- PatientDemographics of src/types/index.ts. -/
structure PatientDemographics where
  age : ℚ
  sex : Gender
  weight : ℚ
  height : ℚ
  neckCircumference : Option ℚ := none
deriving DecidableEq

/-- The STOP-BANG risk enumeration 'low' | 'intermediate' | 'high'. -/
inductive StopBangRisk where
  | low
  | intermediate
  | high
deriving DecidableEq

/-- String literal of a STOP-BANG risk level. -/
def StopBangRisk.str : StopBangRisk → String
  | .low => "low"
  | .intermediate => "intermediate"
  | .high => "high"

/-- Position of a STOP-BANG risk level in the documented low-to-high order. -/
def StopBangRisk.ord : StopBangRisk → ℕ
  | .low => 0
  | .intermediate => 1
  | .high => 2

/-- The components record of StopBangResult: the eight yes/no items. -/
structure StopBangComponents where
  S : Bool
  T : Bool
  O : Bool
  P : Bool
  B : Bool
  A : Bool
  N : Bool
  G : Bool
deriving DecidableEq

/-- StopBangResult of src/types/index.ts. -/
structure StopBangResult where
  score : ℕ
  risk : StopBangRisk
  interpretation : String
  components : StopBangComponents
  recommendations : List String
deriving DecidableEq

/-- validateAge of src/utils/validation.ts. -/
def validateAge (age : Option ℚ) : ValidationResult :=
  let errors : List CalculatorError :=
    match age with
    | none => [{ code := "AGE_REQUIRED", message := "Age is required", field := some "age" }]
    | some a =>
      if a < 18 then
        [{ code := "AGE_TOO_LOW",
           message := "STOP-BANG is validated for adults 18 years and older",
           field := some "age" }]
      else if a > 120 then
        [{ code := "AGE_INVALID", message := "Please enter a valid age", field := some "age" }]
      else []
  { isValid := errors.isEmpty, errors := errors }

/-- validateBMI of src/utils/validation.ts (the presence tests are
`=== undefined`, not truthiness). -/
def validateBMI (bmi weight height : Option ℚ) : ValidationResult :=
  let errors : List CalculatorError :=
    if bmi = none ∧ (weight = none ∨ height = none) then
      [{ code := "BMI_CALCULATION_ERROR",
         message := "Either BMI or both weight and height must be provided",
         field := some "bmi" }]
    else
      match bmi with
      | some b =>
        if b < 10 ∨ b > 70 then
          [{ code := "BMI_INVALID", message := "BMI must be between 10 and 70",
             field := some "bmi" }]
        else []
      | none => []
  { isValid := errors.isEmpty, errors := errors }

/-- calculateBMI of src/utils/validation.ts:
`Number((weightKg / (heightM * heightM)).toFixed(1))`, i.e. weight over
height squared rounded to one decimal place (toFixed rounds to nearest,
ties away from zero on the positive values arising here, which round models
exactly). -/
def calculateBMI (weightKg heightCm : ℚ) : ℚ :=
  let heightM := heightCm / 100
  (round (weightKg / (heightM * heightM) * 10) : ℚ) / 10

/-- The age resolution of calculateStopBang:
`input.age ?? demographics?.age`. -/
def sbAge (input : StopBangInput) (demographics : Option PatientDemographics) : Option ℚ :=
  input.age.orElse fun _ => demographics.map (·.age)

/-- The BMI resolution of calculateStopBang: `let bmi = input.bmi;
if (!bmi && demographics?.weight && demographics?.height) bmi =
calculateBMI(...)` (note `!bmi` and the weight/height guards test JavaScript
truthiness, so a supplied BMI of 0 is overwritten too). -/
def sbBMI (input : StopBangInput) (demographics : Option PatientDemographics) : Option ℚ :=
  match demographics with
  | some d =>
    if ¬(truthyNum input.bmi) ∧ d.weight ≠ 0 ∧ d.height ≠ 0 then
      some (calculateBMI d.weight d.height)
    else input.bmi
  | none => input.bmi

/-- The gender resolution of calculateStopBang:
`input.gender ?? demographics?.sex`. -/
def sbGender (input : StopBangInput) (demographics : Option PatientDemographics) :
    Option Gender :=
  input.gender.orElse fun _ => demographics.map (·.sex)

/-- The neck-circumference resolution of calculateStopBang:
`input.neckCircumference ?? demographics?.neckCircumference`. -/
def sbNeck (input : StopBangInput) (demographics : Option PatientDemographics) : Option ℚ :=
  input.neckCircumference.orElse fun _ => demographics.bind (·.neckCircumference)

/-- The errors array calculateStopBang accumulates before throwing: age
validation errors, then BMI validation errors, then the GENDER_REQUIRED
error. Neck circumference is never validated. -/
def stopBangErrors (input : StopBangInput) (demographics : Option PatientDemographics) :
    List CalculatorError :=
  (validateAge (sbAge input demographics)).errors ++
  (validateBMI (sbBMI input demographics) (demographics.map (·.weight))
    (demographics.map (·.height))).errors ++
  (if (sbGender input demographics).isNone then
    [{ code := "GENDER_REQUIRED",
       message := "Gender is required for STOP-BANG calculation",
       field := some "gender" }]
  else [])

/-- The components record calculateStopBang builds: the four direct answers
plus `B: (bmi ?? 0) > 35`, `A: (age ?? 0) > 50`,
`N: neckCircumference ? neckCircumference > 40 : false`,
`G: gender === 'male'`. -/
def stopBangComponents (input : StopBangInput) (demographics : Option PatientDemographics) :
    StopBangComponents :=
  { S := input.snoring
    T := input.tiredness
    O := input.observed
    P := input.pressure
    B := decide ((sbBMI input demographics).getD 0 > 35)
    A := decide ((sbAge input demographics).getD 0 > 50)
    N := if truthyNum (sbNeck input demographics) then
           decide ((sbNeck input demographics).getD 0 > 40)
         else false
    G := sbGender input demographics == some .male }

/-- The score of calculateStopBang:
`Object.values(components).filter(Boolean).length`, the number of true
components in the S,T,O,P,B,A,N,G order. -/
def stopBangScoreOf (c : StopBangComponents) : ℕ :=
  (if c.S then 1 else 0) + (if c.T then 1 else 0) + (if c.O then 1 else 0) +
  (if c.P then 1 else 0) + (if c.B then 1 else 0) + (if c.A then 1 else 0) +
  (if c.N then 1 else 0) + (if c.G then 1 else 0)

/-- The risk-level if-chain of calculateStopBang. -/
def stopBangRisk (score : ℕ) : StopBangRisk :=
  if score ≤ 2 then .low else if score ≤ 4 then .intermediate else .high

/-- The generateInterpretation helper of stop-bang.ts. -/
def stopBangInterpretation (score : ℕ) (risk : StopBangRisk) : String :=
  let riskStr := risk.str
  let base := s!"STOP-BANG score of {score} indicates {riskStr} risk of obstructive sleep apnea."
  match risk with
  | .low => s!"{base} The patient has a low probability of moderate to severe OSA."
  | .intermediate =>
    s!"{base} Further evaluation may be warranted based on clinical judgment and planned procedure."
  | .high =>
    s!"{base} The patient has a high probability of moderate to severe OSA. Consider polysomnography and perioperative precautions."

/-- The generateRecommendations helper of stop-bang.ts. -/
def stopBangRecommendations (score : ℕ) (risk : StopBangRisk)
    (components : StopBangComponents) : List String :=
  ["Document STOP-BANG score in preoperative assessment"] ++
  (match risk with
  | .low =>
    ["Proceed with standard anesthetic care",
     "No specific OSA precautions required"]
  | .intermediate =>
    ["Consider extended monitoring in PACU",
     "Use caution with sedatives and opioids",
     "Consider referral for sleep study if multiple risk factors present"] ++
    (if components.B ∨ components.N then
      ["Optimize positioning to maintain airway patency"] else [])
  | .high =>
    ["Strong consideration for polysomnography before elective surgery",
     "Consider using short-acting agents",
     "Plan for possible postoperative continuous monitoring",
     "Have difficult airway equipment readily available",
     "Consider regional anesthesia when appropriate",
     "Minimize opioid use - consider multimodal analgesia"] ++
    (if score ≥ 6 then
      ["Consider postoperative ICU admission for major surgery"] else [])) ++
  (if components.P then ["Ensure blood pressure is optimized preoperatively"] else []) ++
  (if components.B then ["Consider weight loss counseling for elective procedures"] else [])

/-- The result record calculateStopBang builds once validation has passed. -/
def stopBangBuild (input : StopBangInput) (demographics : Option PatientDemographics) :
    StopBangResult :=
  let components := stopBangComponents input demographics
  let score := stopBangScoreOf components
  let risk := stopBangRisk score
  { score := score
    risk := risk
    interpretation := stopBangInterpretation score risk
    components := components
    recommendations := stopBangRecommendations score risk components }

/-- calculateStopBang of stop-bang.ts: resolve age, BMI, gender and neck
circumference, aggregate all validation errors, throw a plain Error whose
message joins the individual error messages if any, otherwise score. -/
def calculateStopBang (input : StopBangInput)
    (demographics : Option PatientDemographics := none) :
    Except String StopBangResult :=
  let errors := stopBangErrors input demographics
  if errors.isEmpty then
    .ok (stopBangBuild input demographics)
  else
    .error ("Validation errors: " ++ String.intercalate ", " (errors.map (·.message)))

/-! ### MELD calculator (src/calculators/meld.ts) -/

/-- The loosely typed object calculateMELDScore receives before validation
(dialysis is an optional boolean, so undefined is a legal value for it). -/
structure MELDRawInput where
  bilirubin : JSValue
  creatinine : JSValue
  inr : JSValue
  dialysis : JSValue
deriving DecidableEq

/-- The MELD risk enumeration 'low' | 'moderate' | 'high' | 'very-high'. -/
inductive MELDRisk where
  | low
  | moderate
  | high
  | veryHigh
deriving DecidableEq, Fintype

/-- String literal of a MELD risk category. -/
def MELDRisk.str : MELDRisk → String
  | .low => "low"
  | .moderate => "moderate"
  | .high => "high"
  | .veryHigh => "very-high"

/-- The `risk.replace('-', ' ')` rendering used inside the interpretation. -/
def MELDRisk.desc : MELDRisk → String
  | .low => "low"
  | .moderate => "moderate"
  | .high => "high"
  | .veryHigh => "very high"

/-- Position of a MELD risk category in the documented low-to-high order. -/
def MELDRisk.ord : MELDRisk → ℕ
  | .low => 0
  | .moderate => 1
  | .high => 2
  | .veryHigh => 3

/-- The labValues echo of MELDScoreResult. -/
structure MELDLabValues where
  bilirubin : ℚ
  creatinine : ℚ
  inr : ℚ
  dialysis : Bool
deriving DecidableEq

/-- MELDScoreResult of src/types/index.ts. -/
structure MELDScoreResult where
  score : ℤ
  mortalityRisk : String
  mortalityPercentage : ℚ
  risk : MELDRisk
  interpretation : String
  labValues : MELDLabValues
  recommendations : List String

/-- validateMELDInput of meld.ts: fail-fast checks in source order. The
argument is none when the input is absent or not an object. Every thrown
CalculatorError is constructed with a message only, so its code and field
stay at their defaults (absent). -/
def validateMELDInput : Option MELDRawInput → Option CalculatorException
  | none => some { message := "Invalid input: MELDScoreInput object required" }
  | some i =>
    if ¬(i.bilirubin.isNum ∧ i.bilirubin.numVal > 0) then
      some { message := "Invalid bilirubin: must be a positive number in mg/dL" }
    else if i.bilirubin.numVal > 50 then
      some { message := "Invalid bilirubin: value appears too high (>50 mg/dL), please verify units" }
    else if ¬(i.creatinine.isNum ∧ i.creatinine.numVal > 0) then
      some { message := "Invalid creatinine: must be a positive number in mg/dL" }
    else if i.creatinine.numVal > 15 then
      some { message := "Invalid creatinine: value appears too high (>15 mg/dL), please verify units" }
    else if ¬(i.inr.isNum ∧ i.inr.numVal > 0) then
      some { message := "Invalid INR: must be a positive number" }
    else if i.inr.numVal > 10 then
      some { message := "Invalid INR: value appears too high (>10), please verify" }
    else if i.dialysis ≠ .undefined ∧ ¬i.dialysis.isBool then
      some { message := "Invalid dialysis: must be a boolean value" }
    else none

/-- The bilirubin constraint of calculateMELDScore:
`Math.max(1.0, Math.min(input.bilirubin, 4.0))`. The same expression is
applied to the INR, and to the creatinine when dialysis is falsy. -/
def meldClamp (q : ℚ) : ℚ := max 1 (min q 4)

/-- The creatinine actually used by the formula: 4.0 when dialysis is
truthy, the clamped input creatinine otherwise. -/
def meldCreatinineUsed (creatinine : ℚ) (dialysis : Bool) : ℚ :=
  if dialysis then 4 else meldClamp creatinine

/-- The raw MELD formula of calculateMELDScore,
`3.78 × ln(bilirubin) + 11.2 × ln(INR) + 9.57 × ln(creatinine) + 6.43`,
applied to the already constrained lab values (Math.log is the natural
logarithm, modelled by Real.log). -/
noncomputable def meldRawScore (bilirubin inr creatinine : ℝ) : ℝ :=
  3.78 * Real.log bilirubin + 11.2 * Real.log inr + 9.57 * Real.log creatinine + 6.43

/-- The score computed by calculateMELDScore from validated lab values:
`score = Math.max(6, Math.min(40, Math.round(rawScore * 10) / 10))` followed
by `finalScore = Math.round(score)` — the raw value is rounded to one
decimal place, clamped to [6, 40], and only then rounded to an integer. -/
noncomputable def meldFinalScore (bilirubin creatinine inr : ℚ) (dialysis : Bool) : ℤ :=
  let rawScore := meldRawScore (meldClamp bilirubin) (meldClamp inr)
    (meldCreatinineUsed creatinine dialysis)
  let score : ℝ := max 6 (min 40 ((round (rawScore * 10) : ℤ) / 10 : ℝ))
  round score

/-- The getMortalityRisk if-chain of meld.ts, returning the risk category
with its fixed mortality percentage (as a number and as a string). -/
def getMortalityRisk (score : ℤ) : MELDRisk × ℚ × String :=
  if score ≤ 9 then (.low, 1.9, "1.9%")
  else if score ≤ 19 then (.moderate, 6.0, "6.0%")
  else if score ≤ 29 then (.high, 19.6, "19.6%")
  else (.veryHigh, 52.6, "52.6%")

/-- The generateInterpretation helper of meld.ts; the percentage placed in
the sentence is the template rendering of the mortalityPercentage number
(`${mortalityPercentage}%`), not the mortalityRisk string. -/
def meldInterpretation (score : ℤ) (risk : MELDRisk) (mortalityPercentage : ℚ) : String :=
  let riskDescription := risk.desc
  let pct := jsNumToString mortalityPercentage
  s!"MELD score of {score} indicates {riskDescription} risk of 3-month mortality ({pct}%). This score is used to assess liver disease severity and perioperative risk in patients with end-stage liver disease."

/-- The generateRecommendations helper of meld.ts; the lab-specific items
test the raw (unclamped) input values. -/
def meldRecommendations (score : ℤ) (bilirubin creatinine inr : ℚ)
    (dialysis : Bool) : List String :=
  ["Document MELD score in preoperative assessment",
   "Consider hepatology consultation for liver disease management"] ++
  (if score ≤ 9 then
    ["Low surgical risk - proceed with standard perioperative care",
     "Monitor liver function perioperatively"]
  else if score ≤ 19 then
    ["Moderate surgical risk - optimize liver function before elective surgery",
     "Consider enhanced postoperative monitoring",
     "Avoid hepatotoxic medications when possible"]
  else if score ≤ 29 then
    ["High surgical risk - multidisciplinary evaluation recommended",
     "Consider deferring elective surgery until liver function improves",
     "If surgery necessary, plan for intensive postoperative care",
     "Evaluate for liver transplant candidacy"]
  else
    ["Very high surgical risk - surgery should be avoided unless life-threatening",
     "Urgent liver transplant evaluation indicated",
     "If emergency surgery required, plan for ICU-level care",
     "Multidisciplinary team approach essential"]) ++
  (if bilirubin > 3 then
    ["Elevated bilirubin - investigate for biliary obstruction or worsening liver function"]
  else []) ++
  (if inr > 2 then
    ["Significantly elevated INR - consider vitamin K, FFP, or PCC for procedural correction"]
  else []) ++
  (if creatinine > 2 ∨ dialysis then
    ["Renal dysfunction present - avoid nephrotoxic agents and monitor fluid balance"] ++
    (if dialysis then
      ["Patient on dialysis - coordinate timing with nephrology team"] else [])
  else []) ++
  ["Monitor for hepatic encephalopathy",
   "Assess for ascites and portal hypertension",
   "Evaluate coagulation status before procedures"]

/-- The post-validation body of calculateMELDScore; the labValues echo holds
the raw input values (not the clamped ones), with
`dialysis: input.dialysis || false`. -/
noncomputable def meldBuild (i : MELDRawInput) : MELDScoreResult :=
  let bilirubin := i.bilirubin.numVal
  let creatinine := i.creatinine.numVal
  let inr := i.inr.numVal
  let dialysis := i.dialysis.truthy
  let finalScore := meldFinalScore bilirubin creatinine inr dialysis
  let m := getMortalityRisk finalScore
  { score := finalScore
    mortalityRisk := m.2.2
    mortalityPercentage := m.2.1
    risk := m.1
    interpretation := meldInterpretation finalScore m.1 m.2.1
    labValues :=
      { bilirubin := bilirubin
        creatinine := creatinine
        inr := inr
        dialysis := dialysis }
    recommendations := meldRecommendations finalScore bilirubin creatinine inr dialysis }

/-- calculateMELDScore of meld.ts: validate (fail-fast, throwing a
CalculatorError that carries only a message), then compute. The none/none
branch is unreachable because validation rejects an absent input. -/
noncomputable def calculateMELDScore (input : Option MELDRawInput) :
    Except CalculatorException MELDScoreResult :=
  match validateMELDInput input, input with
  | some e, _ => .error e
  | none, none => .error { message := "Invalid input: MELDScoreInput object required" }
  | none, some i => .ok (meldBuild i)

/-- isHighRiskMELD of meld.ts. -/
def isHighRiskMELD (score : ℤ) : Bool := score ≥ 20

/-- getMELDRiskCategory of meld.ts. -/
def getMELDRiskCategory (score : ℤ) : MELDRisk :=
  if score ≤ 9 then .low
  else if score ≤ 19 then .moderate
  else if score ≤ 29 then .high
  else .veryHigh

/-! ### Spec-side definitions

These definitions follow the words of the specification (not the source) and
exist only to be compared with the embedded code. -/

/-- Modelled from the spec, for comparison with the code: the claimed MELD
formula `score = clamp(round(3.78·ln(bilirubin) + 11.2·ln(INR) +
9.57·ln(creatinine) + 6.43), 6, 40)` with each lab individually clamped to
[1.0, 4.0] and creatinine forced to 4.0 under dialysis — a single rounding
to an integer before the [6, 40] clamp. -/
noncomputable def meldScoreClaimFormula (bilirubin creatinine inr : ℚ) (dialysis : Bool) : ℤ :=
  max 6 (min 40 (round (meldRawScore (meldClamp bilirubin) (meldClamp inr)
    (meldCreatinineUsed creatinine dialysis))))

/-- The documented RCRI tier boundary ranges (0→I, 1→II, 2→III, ≥3→IV),
written from the spec table. -/
def rcriDocRange (c : RCRIClass) (s : ℕ) : Prop :=
  match c with
  | .I => s = 0
  | .II => s = 1
  | .III => s = 2
  | .IV => 3 ≤ s

/-- The documented STOP-BANG tier boundary ranges (0-2 low, 3-4
intermediate, 5-8 high), written from the spec table. -/
def stopBangDocRange (r : StopBangRisk) (s : ℕ) : Prop :=
  match r with
  | .low => s ≤ 2
  | .intermediate => 3 ≤ s ∧ s ≤ 4
  | .high => 5 ≤ s ∧ s ≤ 8

/-- The documented Apfel tier boundary ranges (0 low, 1 moderate, 2 high,
3-4 very-high), written from the spec table. -/
def apfelDocRange (r : ApfelRisk) (s : ℕ) : Prop :=
  match r with
  | .low => s = 0
  | .moderate => s = 1
  | .high => s = 2
  | .veryHigh => 3 ≤ s ∧ s ≤ 4

/-- The documented MELD tier boundary ranges (≤9 low, 10-19 moderate, 20-29
high, ≥30 very-high), written from the spec table. -/
def meldDocRange (r : MELDRisk) (s : ℤ) : Prop :=
  match r with
  | .low => s ≤ 9
  | .moderate => 10 ≤ s ∧ s ≤ 19
  | .high => 20 ≤ s ∧ s ≤ 29
  | .veryHigh => 30 ≤ s

/-- The published RCRI percentage table (0→0.4%, 1→0.9%, 2→6.6%,
≥3→"≥11%" with 11 as the number), written from the spec table. -/
def rcriDocPercentage (s : ℕ) : ℚ × String :=
  if s = 0 then (0.4, "0.4%") else if s = 1 then (0.9, "0.9%")
  else if s = 2 then (6.6, "6.6%") else (11, "≥11%")

/-- The published Apfel percentage table (0→10%, 1→21%, 2→39%, 3→61%,
4→79%), written from the spec table. -/
def apfelDocPercentage (s : ℕ) : ℚ :=
  if s = 0 then 10 else if s = 1 then 21 else if s = 2 then 39
  else if s = 3 then 61 else 79

/-- The published MELD percentage table (low→1.9%, moderate→6.0%,
high→19.6%, very-high→52.6%), written from the spec table. -/
def meldDocPercentage (r : MELDRisk) : ℚ × String :=
  match r with
  | .low => (1.9, "1.9%")
  | .moderate => (6.0, "6.0%")
  | .high => (19.6, "19.6%")
  | .veryHigh => (52.6, "52.6%")

/-! ### Interval bounds for the logarithms the proofs need -/

/-- Degree-7 Taylor polynomial of the exponential, the partial sum appearing
in the library bounds for Real.exp. -/
noncomputable def taylor8 (x : ℝ) : ℝ := ∑ m ∈ Finset.range 8, x ^ m / m.factorial

theorem taylor8_eq (x : ℝ) :
    taylor8 x = 1 + x + x ^ 2 / 2 + x ^ 3 / 6 + x ^ 4 / 24 + x ^ 5 / 120 +
      x ^ 6 / 720 + x ^ 7 / 5040 := by
  simp [taylor8, Finset.sum_range_succ, Nat.factorial]

/-- Two-sided logarithm bounds from Taylor bounds on the exponential at the
endpoints. -/
theorem log_bounds_of_taylor {y a b : ℝ} (hy : 0 < y) (ha0 : 0 ≤ a) (ha1 : a ≤ 1)
    (hb0 : 0 ≤ b) (hA : taylor8 a + a ^ 8 * 9 / 322560 < y) (hB : y < taylor8 b) :
    a < Real.log y ∧ Real.log y < b := by
  constructor
  · refine (Real.lt_log_iff_exp_lt hy).2 (lt_of_le_of_lt ?_ hA)
    have h := Real.exp_bound' ha0 ha1 (n := 8) (by norm_num)
    have h2 : ((8 : ℕ).factorial : ℝ) * 8 = 322560 := by norm_num [Nat.factorial]
    calc Real.exp a ≤ (∑ m ∈ Finset.range 8, a ^ m / m.factorial) +
          a ^ 8 * (8 + 1) / ((8 : ℕ).factorial * 8) := by exact_mod_cast h
      _ = taylor8 a + a ^ 8 * 9 / 322560 := by rw [h2, taylor8]; norm_num
  · refine (Real.log_lt_iff_lt_exp hy).2 (lt_of_lt_of_le hB ?_)
    exact_mod_cast Real.sum_le_exp_of_nonneg hb0 8

theorem log_bounds_2_5 : (0.9158 : ℝ) < Real.log 2.5 ∧ Real.log 2.5 < 0.9168 := by
  refine log_bounds_of_taylor (by norm_num) (by norm_num) (by norm_num) (by norm_num) ?_ ?_ <;>
    rw [taylor8_eq] <;> norm_num

theorem log_bounds_1_6 : (0.4695 : ℝ) < Real.log 1.6 ∧ Real.log 1.6 < 0.4705 := by
  refine log_bounds_of_taylor (by norm_num) (by norm_num) (by norm_num) (by norm_num) ?_ ?_ <;>
    rw [taylor8_eq] <;> norm_num

theorem log_bounds_1_8 : (0.5873 : ℝ) < Real.log 1.8 ∧ Real.log 1.8 < 0.5883 := by
  refine log_bounds_of_taylor (by norm_num) (by norm_num) (by norm_num) (by norm_num) ?_ ?_ <;>
    rw [taylor8_eq] <;> norm_num

theorem log_bounds_2_05 : (0.7173 : ℝ) < Real.log 2.05 ∧ Real.log 2.05 < 0.7183 := by
  refine log_bounds_of_taylor (by norm_num) (by norm_num) (by norm_num) (by norm_num) ?_ ?_ <;>
    rw [taylor8_eq] <;> norm_num

/-- Evaluation principle for round on an interval. -/
theorem round_eq_of_bounds {x : ℝ} {n : ℤ} (h1 : (n : ℝ) - 1 / 2 ≤ x)
    (h2 : x < (n : ℝ) + 1 / 2) : round x = n := by
  rw [round_eq, Int.floor_eq_iff]
  constructor
  · linarith
  · linarith

/-- Monotonicity of round. -/
theorem round_mono_real {x y : ℝ} (h : x ≤ y) : round x ≤ round y := by
  rw [round_eq, round_eq]
  exact Int.floor_le_floor (by linarith)

/-! ### Concrete MELD score evaluations -/

/-- Evaluation principle for meldFinalScore from bounds on the raw score. -/
theorem meldFinalScore_of_raw_bounds (b c i : ℚ) (d : Bool) (k n : ℤ)
    (h1 : (k : ℝ) - 1 / 2 ≤
      meldRawScore (meldClamp b) (meldClamp i) (meldCreatinineUsed c d) * 10)
    (h2 : meldRawScore (meldClamp b) (meldClamp i) (meldCreatinineUsed c d) * 10 <
      (k : ℝ) + 1 / 2)
    (hn : round (max 6 (min 40 ((k : ℝ) / 10))) = n) :
    meldFinalScore b c i d = n := by
  simp only [meldFinalScore]
  rw [round_eq_of_bounds h1 h2, hn]

theorem meldFinalScore_half_point_eight_point_nine :
    meldFinalScore 0.5 0.8 0.9 false = 6 := by
  have hb : ((meldClamp 0.5 : ℚ) : ℝ) = 1 := by norm_num [meldClamp]
  have hi : ((meldClamp 0.9 : ℚ) : ℝ) = 1 := by norm_num [meldClamp]
  have hc : ((meldCreatinineUsed 0.8 false : ℚ) : ℝ) = 1 := by
    norm_num [meldCreatinineUsed, meldClamp]
  have hraw : meldRawScore (meldClamp 0.5) (meldClamp 0.9) (meldCreatinineUsed 0.8 false) =
      (6.43 : ℝ) := by
    rw [meldRawScore, hb, hi, hc, Real.log_one]
    norm_num
  refine meldFinalScore_of_raw_bounds 0.5 0.8 0.9 false 64 6 ?_ ?_ ?_
  · rw [hraw]; norm_num
  · rw [hraw]; norm_num
  · have : max (6 : ℝ) (min 40 ((64 : ℤ) / 10)) = 6.4 := by norm_num
    rw [this]
    exact round_eq_of_bounds (by norm_num) (by norm_num)

theorem meldFinalScore_example_21 : meldFinalScore 2.5 1.8 1.6 false = 21 := by
  have hb : ((meldClamp 2.5 : ℚ) : ℝ) = 2.5 := by norm_num [meldClamp]
  have hi : ((meldClamp 1.6 : ℚ) : ℝ) = 1.6 := by norm_num [meldClamp]
  have hc : ((meldCreatinineUsed 1.8 false : ℚ) : ℝ) = 1.8 := by
    norm_num [meldCreatinineUsed, meldClamp]
  have h25 := log_bounds_2_5
  have h16 := log_bounds_1_6
  have h18 := log_bounds_1_8
  have hraw : meldRawScore (meldClamp 2.5) (meldClamp 1.6) (meldCreatinineUsed 1.8 false) =
      3.78 * Real.log 2.5 + 11.2 * Real.log 1.6 + 9.57 * Real.log 1.8 + 6.43 := by
    rw [meldRawScore, hb, hi, hc]
  refine meldFinalScore_of_raw_bounds 2.5 1.8 1.6 false 208 21 ?_ ?_ ?_
  · rw [hraw]; push_cast; nlinarith [h25.1, h16.1, h18.1]
  · rw [hraw]; push_cast; nlinarith [h25.2, h16.2, h18.2]
  · have : max (6 : ℝ) (min 40 ((208 : ℤ) / 10)) = 20.8 := by norm_num
    rw [this]
    exact round_eq_of_bounds (by norm_num) (by norm_num)

theorem meldFinalScore_inr_2_05 : meldFinalScore 1 1 2.05 false = 15 := by
  have hb : ((meldClamp 1 : ℚ) : ℝ) = 1 := by norm_num [meldClamp]
  have hi : ((meldClamp 2.05 : ℚ) : ℝ) = 2.05 := by norm_num [meldClamp]
  have hc : ((meldCreatinineUsed 1 false : ℚ) : ℝ) = 1 := by
    norm_num [meldCreatinineUsed, meldClamp]
  have h205 := log_bounds_2_05
  have hraw : meldRawScore (meldClamp 1) (meldClamp 2.05) (meldCreatinineUsed 1 false) =
      11.2 * Real.log 2.05 + 6.43 := by
    rw [meldRawScore, hb, hi, hc, Real.log_one]
    ring
  refine meldFinalScore_of_raw_bounds 1 1 2.05 false 145 15 ?_ ?_ ?_
  · rw [hraw]; push_cast; nlinarith [h205.1]
  · rw [hraw]; push_cast; nlinarith [h205.2]
  · have : max (6 : ℝ) (min 40 ((145 : ℤ) / 10)) = 14.5 := by norm_num
    rw [this]
    exact round_eq_of_bounds (by norm_num) (by norm_num)

theorem meldClaimFormula_inr_2_05 : meldScoreClaimFormula 1 1 2.05 false = 14 := by
  have hb : ((meldClamp 1 : ℚ) : ℝ) = 1 := by norm_num [meldClamp]
  have hi : ((meldClamp 2.05 : ℚ) : ℝ) = 2.05 := by norm_num [meldClamp]
  have hc : ((meldCreatinineUsed 1 false : ℚ) : ℝ) = 1 := by
    norm_num [meldCreatinineUsed, meldClamp]
  have h205 := log_bounds_2_05
  have hraw : meldRawScore (meldClamp 1) (meldClamp 2.05) (meldCreatinineUsed 1 false) =
      11.2 * Real.log 2.05 + 6.43 := by
    rw [meldRawScore, hb, hi, hc, Real.log_one]
    ring
  have hround : round (meldRawScore (meldClamp 1) (meldClamp 2.05)
      (meldCreatinineUsed 1 false)) = 14 := by
    rw [hraw]
    exact round_eq_of_bounds (by push_cast; nlinarith [h205.1]) (by push_cast; nlinarith [h205.2])
  rw [meldScoreClaimFormula, hround]
  norm_num

theorem meldFinalScore_inr_2 : meldFinalScore 1 1 2 false = 14 := by
  have hb : ((meldClamp 1 : ℚ) : ℝ) = 1 := by norm_num [meldClamp]
  have hi : ((meldClamp 2 : ℚ) : ℝ) = 2 := by norm_num [meldClamp]
  have hc : ((meldCreatinineUsed 1 false : ℚ) : ℝ) = 1 := by
    norm_num [meldCreatinineUsed, meldClamp]
  have h2 := Real.log_two_gt_d9
  have h2u := Real.log_two_lt_d9
  have hraw : meldRawScore (meldClamp 1) (meldClamp 2) (meldCreatinineUsed 1 false) =
      11.2 * Real.log 2 + 6.43 := by
    rw [meldRawScore, hb, hi, hc, Real.log_one]
    ring
  refine meldFinalScore_of_raw_bounds 1 1 2 false 142 14 ?_ ?_ ?_
  · rw [hraw]; push_cast; nlinarith [h2]
  · rw [hraw]; push_cast; nlinarith [h2u]
  · have : max (6 : ℝ) (min 40 ((142 : ℤ) / 10)) = 14.2 := by norm_num
    rw [this]
    exact round_eq_of_bounds (by norm_num) (by norm_num)

/-! ### General lemmas about the embedded calculators -/

theorem rcriScore_le (input : RCRIInput) : rcriScore input ≤ 6 := by
  unfold rcriScore
  split_ifs <;> omega

theorem apfelScore_le (input : ApfelScoreInput) : apfelScore input ≤ 4 := by
  unfold apfelScore
  split_ifs <;> omega

theorem stopBangScoreOf_le (c : StopBangComponents) : stopBangScoreOf c ≤ 8 := by
  unfold stopBangScoreOf
  split_ifs <;> omega

/-- Inversion for a successful STOP-BANG run. -/
theorem calculateStopBang_ok_inv {input : StopBangInput}
    {demographics : Option PatientDemographics} {r : StopBangResult}
    (h : calculateStopBang input demographics = .ok r) :
    r = stopBangBuild input demographics := by
  by_cases he : (stopBangErrors input demographics).isEmpty <;>
    simp [calculateStopBang, he] at h
  exact h.symm

/-- Inversion for a failed STOP-BANG run. -/
theorem calculateStopBang_error_inv {input : StopBangInput}
    {demographics : Option PatientDemographics} {msg : String}
    (h : calculateStopBang input demographics = .error msg) :
    msg = "Validation errors: " ++
      String.intercalate ", " ((stopBangErrors input demographics).map (·.message)) := by
  by_cases he : (stopBangErrors input demographics).isEmpty <;>
    simp [calculateStopBang, he] at h
  exact h.symm

/-- Inversion for a successful MELD run. -/
theorem calculateMELDScore_ok_inv {i : MELDRawInput} {r : MELDScoreResult}
    (h : calculateMELDScore (some i) = .ok r) :
    validateMELDInput (some i) = none ∧ r = meldBuild i := by
  unfold calculateMELDScore at h
  cases hv : validateMELDInput (some i) <;> rw [hv] at h <;> simp at h
  exact ⟨rfl, h.symm⟩

/-- Inversion for a successful Apfel run. -/
theorem calculateApfelScore_ok_inv {raw : Option ApfelRawInput} {r : ApfelScoreResult}
    (h : calculateApfelScore raw = .ok r) :
    ∃ i, raw = some i ∧ validateApfelInput raw = none ∧ r = (apfelBuild i.resolve) := by
  cases raw with
  | none => simp [calculateApfelScore, validateApfelInput] at h
  | some i =>
    unfold calculateApfelScore at h
    cases hv : validateApfelInput (some i) <;> rw [hv] at h <;> simp at h
    exact ⟨i, rfl, rfl, h.symm⟩

/-- MELD final scores always land in [6, 40]. -/
theorem meldFinalScore_range (b c i : ℚ) (d : Bool) :
    6 ≤ meldFinalScore b c i d ∧ meldFinalScore b c i d ≤ 40 := by
  simp only [meldFinalScore]
  set s1 : ℝ := ((round (meldRawScore (meldClamp b) (meldClamp i)
    (meldCreatinineUsed c d) * 10) : ℤ) : ℝ) / 10 with hs1
  constructor
  · have h6 : (6 : ℝ) ≤ max 6 (min 40 s1) := le_max_left _ _
    have := round_mono_real h6
    simpa using this
  · have h40 : max (6 : ℝ) (min 40 s1) ≤ 40 := max_le (by norm_num) (min_le_left _ _)
    have := round_mono_real h40
    simpa using this

/-- The MELD tier returned by getMortalityRisk is the unique documented tier
containing the score (the four documented ranges partition the integers). -/
theorem meld_tier_doc (s : ℤ) :
    meldDocRange (getMortalityRisk s).1 s ∧
      ∀ t, meldDocRange t s → t = (getMortalityRisk s).1 := by
  unfold getMortalityRisk
  split_ifs with h1 h2 h3 <;>
    refine ⟨by simp [meldDocRange]; omega, fun t ht => ?_⟩ <;>
    cases t <;> simp [meldDocRange] at ht ⊢ <;> omega

/-- The MELD percentage pair returned by getMortalityRisk agrees with the
published table for the returned tier. -/
theorem meld_percentage_doc (s : ℤ) :
    ((getMortalityRisk s).2.1, (getMortalityRisk s).2.2) =
      meldDocPercentage (getMortalityRisk s).1 := by
  unfold getMortalityRisk
  split_ifs <;> rfl

/-- The STOP-BANG tier is the unique documented tier containing the score. -/
theorem stopBang_tier_doc (s : ℕ) (h8 : s ≤ 8) :
    stopBangDocRange (stopBangRisk s) s ∧
      ∀ t, stopBangDocRange t s → t = stopBangRisk s := by
  unfold stopBangRisk
  split_ifs with h1 h2 <;>
    refine ⟨by simp [stopBangDocRange]; omega, fun t ht => ?_⟩ <;>
    cases t <;> simp [stopBangDocRange] at ht ⊢ <;> omega

/-- The Apfel tier is the unique documented tier containing the score. -/
theorem apfel_tier_doc (s : ℕ) (h4 : s ≤ 4) :
    apfelDocRange (apfelRisk s) s ∧ ∀ t, apfelDocRange t s → t = apfelRisk s := by
  unfold apfelRisk
  split_ifs with h1 h2 h3 <;>
    refine ⟨by simp [apfelDocRange]; omega, fun t ht => ?_⟩ <;>
    cases t <;> simp [apfelDocRange] at ht ⊢ <;> omega

/-- The Apfel percentage lookup agrees with the published table on 0-4. -/
theorem apfel_percentage_doc (s : ℕ) (h4 : s ≤ 4) :
    apfelRiskPercentage s = apfelDocPercentage s := by
  interval_cases s <;> rfl

/-- The RCRI class chosen by calculateRCRI is the unique documented class
containing the score, and the percentage pair agrees with the published
table. -/
theorem rcri_class_doc (s : ℕ) :
    rcriDocRange (if s = 0 then RCRIClass.I else if s = 1 then RCRIClass.II
      else if s = 2 then RCRIClass.III else RCRIClass.IV) s ∧
      (∀ t, rcriDocRange t s →
        t = (if s = 0 then RCRIClass.I else if s = 1 then RCRIClass.II
          else if s = 2 then RCRIClass.III else RCRIClass.IV)) := by
  split_ifs with h1 h2 h3 <;>
    refine ⟨by simp [rcriDocRange]; omega, fun t ht => ?_⟩ <;>
    cases t <;> simp [rcriDocRange] at ht ⊢ <;> omega

theorem meldBuild_score (i : MELDRawInput) :
    (meldBuild i).score =
      meldFinalScore i.bilirubin.numVal i.creatinine.numVal i.inr.numVal i.dialysis.truthy := by
  simp [meldBuild]

theorem meldBuild_risk (i : MELDRawInput) :
    (meldBuild i).risk = (getMortalityRisk (meldBuild i).score).1 := by
  simp [meldBuild]

theorem meldBuild_pct (i : MELDRawInput) :
    (meldBuild i).mortalityPercentage = (getMortalityRisk (meldBuild i).score).2.1 := by
  simp [meldBuild]

theorem meldBuild_mortalityRisk (i : MELDRawInput) :
    (meldBuild i).mortalityRisk = (getMortalityRisk (meldBuild i).score).2.2 := by
  simp [meldBuild]

theorem meldBuild_labValues (i : MELDRawInput) :
    (meldBuild i).labValues =
      { bilirubin := i.bilirubin.numVal
        creatinine := i.creatinine.numVal
        inr := i.inr.numVal
        dialysis := i.dialysis.truthy } := by
  simp [meldBuild]

theorem meldBuild_interpretation (i : MELDRawInput) :
    (meldBuild i).interpretation =
      meldInterpretation (meldBuild i).score (meldBuild i).risk
        (meldBuild i).mortalityPercentage := by
  simp [meldBuild]

/-- Validation passes on numeric labs in range with a well-typed dialysis
flag. -/
theorem validateMELDInput_none {b c i : ℚ} {d : JSValue} (hb0 : 0 < b) (hb : b ≤ 50)
    (hc0 : 0 < c) (hc : c ≤ 15) (hi0 : 0 < i) (hi : i ≤ 10)
    (hd : d = .undefined ∨ d.isBool = true) :
    validateMELDInput (some ⟨.num b, .num c, .num i, d⟩) = none := by
  have hdial : ¬(d ≠ JSValue.undefined ∧ ¬(d.isBool = true)) := by
    rintro ⟨hne, hnb⟩
    rcases hd with hd | hd
    · exact hne hd
    · exact hnb hd
  unfold validateMELDInput
  dsimp only [JSValue.isNum, JSValue.numVal]
  rw [if_neg (not_not_intro ⟨rfl, hb0⟩),
    if_neg (show ¬(b > 50) from by linarith),
    if_neg (not_not_intro ⟨rfl, hc0⟩),
    if_neg (show ¬(c > 15) from by linarith),
    if_neg (not_not_intro ⟨rfl, hi0⟩),
    if_neg (show ¬(i > 10) from by linarith),
    if_neg hdial]

/-- A MELD input passing validation produces the built result. -/
theorem calculateMELDScore_eq_ok (i : MELDRawInput)
    (h : validateMELDInput (some i) = none) :
    calculateMELDScore (some i) = .ok (meldBuild i) := by
  unfold calculateMELDScore
  rw [h]

/-- Claim C1 counterexample: at the valid input bilirubin=1, creatinine=1,
INR=2.05, dialysis=false the code returns score 15 (raw ≈ 14.4698 rounds to
14.5 at one decimal and then to 15), while the claimed single-rounding
formula clamp(round(raw), 6, 40) yields 14; so the claimed formula does not
describe calculateMELDScore. -/
theorem claim_C1_counterexample :
    ∃ r, calculateMELDScore (some ⟨.num 1, .num 1, .num 2.05, .bool false⟩) = .ok r ∧
      r.score = 15 ∧ meldScoreClaimFormula 1 1 2.05 false = 14 ∧
      r.score ≠ meldScoreClaimFormula 1 1 2.05 false := by
  have hv : validateMELDInput (some ⟨.num 1, .num 1, .num 2.05, .bool false⟩) = none :=
    validateMELDInput_none (by norm_num) (by norm_num) (by norm_num) (by norm_num)
      (by norm_num) (by norm_num) (Or.inr rfl)
  refine ⟨meldBuild _, calculateMELDScore_eq_ok _ hv, ?_, meldClaimFormula_inr_2_05, ?_⟩
  · rw [meldBuild_score]
    simpa [JSValue.numVal, JSValue.truthy] using meldFinalScore_inr_2_05
  · rw [meldBuild_score, meldClaimFormula_inr_2_05]
    simpa [JSValue.numVal, JSValue.truthy] using meldFinalScore_inr_2_05 ▸ (by norm_num :
      (15 : ℤ) ≠ 14)

/-- Claim C1 amended: for every valid MELD input the returned score is
round(clamp(round(raw·10)/10, 6, 40)) — the raw formula value is rounded to
one decimal place first, clamped to [6, 40], and then rounded to an integer
(not clamp(round(raw))); with that correction the concrete examples hold:
bilirubin=0.5, creatinine=0.8, INR=0.9 yield the floor score 6, and
bilirubin=2.5, creatinine=1.8, INR=1.6, dialysis=false yield score 21 with
risk high and percentage 19.6. -/
theorem claim_C1_amended :
    (∀ i : MELDRawInput, ∀ r : MELDScoreResult, calculateMELDScore (some i) = .ok r →
      r.score = round (max (6 : ℝ) (min 40
        ((round (meldRawScore (meldClamp i.bilirubin.numVal) (meldClamp i.inr.numVal)
          (meldCreatinineUsed i.creatinine.numVal i.dialysis.truthy) * 10) : ℤ) / 10 : ℝ)))) ∧
    meldFinalScore 0.5 0.8 0.9 false = 6 ∧
    (∃ r, calculateMELDScore (some ⟨.num 2.5, .num 1.8, .num 1.6, .bool false⟩) = .ok r ∧
      r.score = 21 ∧ r.risk = .high ∧ r.mortalityPercentage = 19.6) := by
  refine ⟨?_, meldFinalScore_half_point_eight_point_nine, ?_⟩
  · intro i r h
    obtain ⟨-, hr⟩ := calculateMELDScore_ok_inv h
    rw [hr, meldBuild_score]
    rfl
  · have hv : validateMELDInput (some ⟨.num 2.5, .num 1.8, .num 1.6, .bool false⟩) = none :=
      validateMELDInput_none (by norm_num) (by norm_num) (by norm_num) (by norm_num)
        (by norm_num) (by norm_num) (Or.inr rfl)
    have hsc : (meldBuild ⟨.num 2.5, .num 1.8, .num 1.6, .bool false⟩).score = 21 := by
      rw [meldBuild_score]
      simpa [JSValue.numVal, JSValue.truthy] using meldFinalScore_example_21
    refine ⟨meldBuild _, calculateMELDScore_eq_ok _ hv, hsc, ?_, ?_⟩
    · rw [meldBuild_risk, hsc]
      rfl
    · rw [meldBuild_pct, hsc]
      rfl

/-- Witness for claim C1 amended at the concrete valid input
bilirubin=creatinine=INR=1, dialysis absent. -/
theorem claim_C1_witness :
    (meldBuild ⟨.num 1, .num 1, .num 1, .undefined⟩).score =
      round (max (6 : ℝ) (min 40
        ((round (meldRawScore (meldClamp 1) (meldClamp 1) (meldCreatinineUsed 1 false) * 10) :
          ℤ) / 10 : ℝ))) := by
  have hv : validateMELDInput (some ⟨.num 1, .num 1, .num 1, .undefined⟩) = none :=
    validateMELDInput_none (by norm_num) (by norm_num) (by norm_num) (by norm_num)
      (by norm_num) (by norm_num) (Or.inl rfl)
  exact claim_C1_amended.1 ⟨.num 1, .num 1, .num 1, .undefined⟩ _
    (calculateMELDScore_eq_ok _ hv)

theorem calculateRCRI_score (input : RCRIInput) :
    (calculateRCRI input).score = rcriScore input := by
  simp [calculateRCRI]

theorem calculateRCRI_class (input : RCRIInput) :
    (calculateRCRI input).riskClass =
      (if rcriScore input = 0 then RCRIClass.I else if rcriScore input = 1 then RCRIClass.II
        else if rcriScore input = 2 then RCRIClass.III else RCRIClass.IV) := by
  simp [calculateRCRI]

theorem calculateRCRI_pct (input : RCRIInput) :
    ((calculateRCRI input).riskPercentage, (calculateRCRI input).estimatedRisk) =
      rcriDocPercentage (rcriScore input) := by
  simp only [calculateRCRI, rcriDocPercentage]
  split_ifs <;> rfl

theorem calculateRCRI_riskFactors (input : RCRIInput) :
    (calculateRCRI input).riskFactors = input := by
  simp [calculateRCRI]

theorem calculateRCRI_interpretation (input : RCRIInput) :
    (calculateRCRI input).interpretation =
      rcriInterpretation (calculateRCRI input).score (calculateRCRI input).riskClass
        (calculateRCRI input).estimatedRisk := by
  simp [calculateRCRI]

theorem stopBangBuild_components (input : StopBangInput)
    (demographics : Option PatientDemographics) :
    (stopBangBuild input demographics).components = stopBangComponents input demographics := by
  simp [stopBangBuild]

theorem stopBangBuild_score (input : StopBangInput)
    (demographics : Option PatientDemographics) :
    (stopBangBuild input demographics).score =
      stopBangScoreOf (stopBangComponents input demographics) := by
  simp [stopBangBuild]

theorem stopBangBuild_risk (input : StopBangInput)
    (demographics : Option PatientDemographics) :
    (stopBangBuild input demographics).risk =
      stopBangRisk (stopBangScoreOf (stopBangComponents input demographics)) := by
  simp [stopBangBuild]

theorem stopBangBuild_interpretation (input : StopBangInput)
    (demographics : Option PatientDemographics) :
    (stopBangBuild input demographics).interpretation =
      stopBangInterpretation (stopBangBuild input demographics).score
        (stopBangBuild input demographics).risk := by
  simp [stopBangBuild]

theorem apfelBuild_score (input : ApfelScoreInput) :
    (apfelBuild input).score = apfelScore input := by
  simp [apfelBuild]

theorem apfelBuild_risk (input : ApfelScoreInput) :
    (apfelBuild input).risk = apfelRisk (apfelScore input) := by
  simp [apfelBuild]

theorem apfelBuild_pct (input : ApfelScoreInput) :
    (apfelBuild input).riskPercentage = apfelRiskPercentage (apfelScore input) := by
  simp [apfelBuild]

theorem apfelBuild_riskFactors (input : ApfelScoreInput) :
    (apfelBuild input).riskFactors = input := by
  simp [apfelBuild]

theorem apfelBuild_interpretation (input : ApfelScoreInput) :
    (apfelBuild input).interpretation =
      apfelInterpretation (apfelScore input) (apfelRisk (apfelScore input))
        (apfelRiskPercentage (apfelScore input)) := by
  simp [apfelBuild]

/-- Claim C2: for every valid input to each of the four calculators the
score is an integer in the documented range (RCRI 0-6, STOP-BANG 0-8, Apfel
0-4, MELD 6-40), the returned tier is the unique tier whose documented
boundary range contains the score, and the percentage value/string is the
published table entry (STOP-BANG has no percentage table). -/
theorem claim_C2 :
    (∀ input : RCRIInput,
      (calculateRCRI input).score ≤ 6 ∧
      rcriDocRange (calculateRCRI input).riskClass (calculateRCRI input).score ∧
      (∀ t, rcriDocRange t (calculateRCRI input).score → t = (calculateRCRI input).riskClass) ∧
      ((calculateRCRI input).riskPercentage, (calculateRCRI input).estimatedRisk) =
        rcriDocPercentage (calculateRCRI input).score) ∧
    (∀ (input : StopBangInput) (demographics : Option PatientDemographics)
      (r : StopBangResult), calculateStopBang input demographics = .ok r →
      r.score ≤ 8 ∧ stopBangDocRange r.risk r.score ∧
      ∀ t, stopBangDocRange t r.score → t = r.risk) ∧
    (∀ (raw : Option ApfelRawInput) (r : ApfelScoreResult),
      calculateApfelScore raw = .ok r →
      r.score ≤ 4 ∧ apfelDocRange r.risk r.score ∧
      (∀ t, apfelDocRange t r.score → t = r.risk) ∧
      r.riskPercentage = apfelDocPercentage r.score) ∧
    (∀ (i : MELDRawInput) (r : MELDScoreResult), calculateMELDScore (some i) = .ok r →
      6 ≤ r.score ∧ r.score ≤ 40 ∧ meldDocRange r.risk r.score ∧
      (∀ t, meldDocRange t r.score → t = r.risk) ∧
      (r.mortalityPercentage, r.mortalityRisk) = meldDocPercentage r.risk) := by
  refine ⟨fun input => ?_, fun input demographics r h => ?_, fun raw r h => ?_,
    fun i r h => ?_⟩
  · rw [calculateRCRI_score, calculateRCRI_class, calculateRCRI_pct]
    exact ⟨rcriScore_le input, (rcri_class_doc _).1, (rcri_class_doc _).2, rfl⟩
  · rw [calculateStopBang_ok_inv h, stopBangBuild_score, stopBangBuild_risk]
    have h8 := stopBangScoreOf_le (stopBangComponents input demographics)
    exact ⟨h8, (stopBang_tier_doc _ h8).1, (stopBang_tier_doc _ h8).2⟩
  · obtain ⟨i, -, -, hr⟩ := calculateApfelScore_ok_inv h
    rw [hr, apfelBuild_score, apfelBuild_risk, apfelBuild_pct]
    have h4 := apfelScore_le i.resolve
    exact ⟨h4, (apfel_tier_doc _ h4).1, (apfel_tier_doc _ h4).2, apfel_percentage_doc _ h4⟩
  · obtain ⟨-, hr⟩ := calculateMELDScore_ok_inv h
    have hrange := meldFinalScore_range i.bilirubin.numVal i.creatinine.numVal
      i.inr.numVal i.dialysis.truthy
    rw [hr, meldBuild_pct, meldBuild_mortalityRisk, meldBuild_risk, meldBuild_score]
    exact ⟨hrange.1, hrange.2, (meld_tier_doc _).1, (meld_tier_doc _).2,
      meld_percentage_doc _⟩

/-- Witness for claim C2 at one concrete valid input per calculator. -/
theorem claim_C2_witness :
    (calculateRCRI ⟨false, false, false, false, false, false⟩).score ≤ 6 ∧
    (stopBangBuild
      { snoring := false, tiredness := false, observed := false, pressure := false,
        bmi := some 25, age := some 45, neckCircumference := some 38,
        gender := some .female } none).score ≤ 8 ∧
    (apfelBuild (ApfelRawInput.resolve
      ⟨.bool false, .bool false, .bool false, .bool false⟩)).score ≤ 4 ∧
    6 ≤ (meldBuild ⟨.num 1, .num 1, .num 1, .undefined⟩).score := by
  refine ⟨(claim_C2.1 _).1, ?_, ?_, ?_⟩
  · exact (claim_C2.2.1
      { snoring := false, tiredness := false, observed := false, pressure := false,
        bmi := some 25, age := some 45, neckCircumference := some 38,
        gender := some .female } none _ rfl).1
  · exact (claim_C2.2.2.1 (some ⟨.bool false, .bool false, .bool false, .bool false⟩)
      _ rfl).1
  · have hv : validateMELDInput (some ⟨.num 1, .num 1, .num 1, .undefined⟩) = none :=
      validateMELDInput_none (by norm_num) (by norm_num) (by norm_num) (by norm_num)
        (by norm_num) (by norm_num) (Or.inl rfl)
    exact (claim_C2.2.2.2 _ _ (calculateMELDScore_eq_ok _ hv)).1

/-- Claim C4: with dialysis=true the MELD score is computed with the
creatinine forced to 4.0 no matter what creatinine was supplied, so two
valid inputs differing only in creatinine (both on dialysis) get the same
score, tier and percentage. -/
theorem claim_C4 :
    (∀ b c i : ℚ, meldFinalScore b c i true = meldFinalScore b 4 i true) ∧
    (∀ (b i c₁ c₂ : ℚ) (r₁ r₂ : MELDScoreResult),
      calculateMELDScore (some ⟨.num b, .num c₁, .num i, .bool true⟩) = .ok r₁ →
      calculateMELDScore (some ⟨.num b, .num c₂, .num i, .bool true⟩) = .ok r₂ →
      r₁.score = r₂.score ∧ r₁.risk = r₂.risk ∧
        r₁.mortalityPercentage = r₂.mortalityPercentage ∧
        r₁.mortalityRisk = r₂.mortalityRisk) := by
  have key : ∀ b c i : ℚ, meldFinalScore b c i true = meldFinalScore b 4 i true := by
    intro b c i
    simp [meldFinalScore, meldCreatinineUsed]
  refine ⟨key, fun b i c₁ c₂ r₁ r₂ h₁ h₂ => ?_⟩
  obtain ⟨-, hr₁⟩ := calculateMELDScore_ok_inv h₁
  obtain ⟨-, hr₂⟩ := calculateMELDScore_ok_inv h₂
  have hscore : r₁.score = r₂.score := by
    rw [hr₁, hr₂, meldBuild_score, meldBuild_score]
    simp only [JSValue.numVal, JSValue.truthy]
    rw [key b c₁ i, key b c₂ i]
  refine ⟨hscore, ?_, ?_, ?_⟩
  · rw [hr₁, hr₂, meldBuild_risk, meldBuild_risk, ← hr₁, ← hr₂, hscore]
  · rw [hr₁, hr₂, meldBuild_pct, meldBuild_pct, ← hr₁, ← hr₂, hscore]
  · rw [hr₁, hr₂, meldBuild_mortalityRisk, meldBuild_mortalityRisk, ← hr₁, ← hr₂, hscore]

/-- Witness for claim C4: dialysis with supplied creatinine 1 and 2 gives
identical score, tier and percentages. -/
theorem claim_C4_witness :
    (meldBuild ⟨.num 1, .num 1, .num 1, .bool true⟩).score =
      (meldBuild ⟨.num 1, .num 2, .num 1, .bool true⟩).score := by
  have hv₁ : validateMELDInput (some ⟨.num 1, .num 1, .num 1, .bool true⟩) = none :=
    validateMELDInput_none (by norm_num) (by norm_num) (by norm_num) (by norm_num)
      (by norm_num) (by norm_num) (Or.inr rfl)
  have hv₂ : validateMELDInput (some ⟨.num 1, .num 2, .num 1, .bool true⟩) = none :=
    validateMELDInput_none (by norm_num) (by norm_num) (by norm_num) (by norm_num)
      (by norm_num) (by norm_num) (Or.inr rfl)
  exact (claim_C4.2 1 1 1 2 _ _ (calculateMELDScore_eq_ok _ hv₁)
    (calculateMELDScore_eq_ok _ hv₂)).1

/-- Claim C8 counterexample: for the valid input bilirubin=0.5 (creatinine=1,
INR=1, no dialysis) the result echoes bilirubin 0.5, but the value the
formula was evaluated on is the clamped 1.0, so the echo is not the value
used in scoring. -/
theorem claim_C8_counterexample :
    ∃ r, calculateMELDScore (some ⟨.num 0.5, .num 1, .num 1, .bool false⟩) = .ok r ∧
      r.labValues.bilirubin = 0.5 ∧ meldClamp 0.5 = 1 ∧ r.labValues.bilirubin ≠ meldClamp 0.5 := by
  have hv : validateMELDInput (some ⟨.num 0.5, .num 1, .num 1, .bool false⟩) = none :=
    validateMELDInput_none (by norm_num) (by norm_num) (by norm_num) (by norm_num)
      (by norm_num) (by norm_num) (Or.inr rfl)
  have hclamp : meldClamp 0.5 = 1 := by norm_num [meldClamp]
  refine ⟨meldBuild _, calculateMELDScore_eq_ok _ hv, ?_, hclamp, ?_⟩
  · rw [meldBuild_labValues]
    rfl
  · rw [meldBuild_labValues, hclamp]
    norm_num [JSValue.numVal]

/-- Claim C8 amended: every successful result echoes the supplied input
values as given (not the clamped values the MELD formula used), with an
omitted dialysis flag resolved to false; for RCRI the riskFactors echo
equals the input booleans exactly, and those are the values used in
scoring. -/
theorem claim_C8_amended :
    (∀ (i : MELDRawInput) (r : MELDScoreResult), calculateMELDScore (some i) = .ok r →
      r.labValues =
        { bilirubin := i.bilirubin.numVal, creatinine := i.creatinine.numVal,
          inr := i.inr.numVal, dialysis := i.dialysis.truthy }) ∧
    (∀ input : RCRIInput, (calculateRCRI input).riskFactors = input ∧
      (calculateRCRI input).score = rcriScore (calculateRCRI input).riskFactors) := by
  refine ⟨fun i r h => ?_, fun input => ?_⟩
  · obtain ⟨-, hr⟩ := calculateMELDScore_ok_inv h
    rw [hr, meldBuild_labValues]
  · rw [calculateRCRI_riskFactors, calculateRCRI_score]
    exact ⟨rfl, rfl⟩

/-- Witness for claim C8 amended at the bilirubin=0.5 input. -/
theorem claim_C8_witness :
    (meldBuild ⟨.num 0.5, .num 1, .num 1, .bool false⟩).labValues =
      { bilirubin := 0.5, creatinine := 1, inr := 1, dialysis := false } := by
  have hv : validateMELDInput (some ⟨.num 0.5, .num 1, .num 1, .bool false⟩) = none :=
    validateMELDInput_none (by norm_num) (by norm_num) (by norm_num) (by norm_num)
      (by norm_num) (by norm_num) (Or.inr rfl)
  exact claim_C8_amended.1 _ _ (calculateMELDScore_eq_ok _ hv)

/-! ### Substring containment helpers -/

theorem contains_self (pat : String) : containsSubstr pat pat = true :=
  (containsSubstr_iff pat pat).2 List.infix_rfl

theorem contains_left (a : String) {s pat : String} (h : containsSubstr s pat = true) :
    containsSubstr (a ++ s) pat = true := by
  rw [containsSubstr_iff] at h ⊢
  obtain ⟨u, v, huv⟩ := h
  refine ⟨a.data ++ u, v, ?_⟩
  rw [String.data_append, ← huv]
  simp [List.append_assoc]

theorem contains_right (b : String) {s pat : String} (h : containsSubstr s pat = true) :
    containsSubstr (s ++ b) pat = true := by
  rw [containsSubstr_iff] at h ⊢
  obtain ⟨u, v, huv⟩ := h
  refine ⟨u, v ++ b.data, ?_⟩
  rw [String.data_append, ← huv]
  simp [List.append_assoc]

/-! ### Claim C5: monotonicity of the additive calculators -/

/-- One boolean risk factor of an RCRI input flipped from false to true,
everything else unchanged. -/
def RCRIOneFlip (i₁ i₂ : RCRIInput) : Prop :=
  (i₁.highRiskSurgery = false ∧ i₂ = { i₁ with highRiskSurgery := true }) ∨
  (i₁.ischemicHeartDisease = false ∧ i₂ = { i₁ with ischemicHeartDisease := true }) ∨
  (i₁.congestiveHeartFailure = false ∧ i₂ = { i₁ with congestiveHeartFailure := true }) ∨
  (i₁.cerebrovascularDisease = false ∧ i₂ = { i₁ with cerebrovascularDisease := true }) ∨
  (i₁.insulinDependentDiabetes = false ∧ i₂ = { i₁ with insulinDependentDiabetes := true }) ∨
  (i₁.renalInsufficiency = false ∧ i₂ = { i₁ with renalInsufficiency := true })

/-- One boolean risk factor of an Apfel input flipped from false to true. -/
def ApfelOneFlip (i₁ i₂ : ApfelScoreInput) : Prop :=
  (i₁.female = false ∧ i₂ = { i₁ with female := true }) ∨
  (i₁.nonSmoker = false ∧ i₂ = { i₁ with nonSmoker := true }) ∨
  (i₁.historyOfPONV = false ∧ i₂ = { i₁ with historyOfPONV := true }) ∨
  (i₁.postoperativeOpioids = false ∧ i₂ = { i₁ with postoperativeOpioids := true })

/-- One direct boolean answer of a STOP-BANG input flipped from false to
true (the four direct yes/no questions; the other components derive from
numeric and gender fields). -/
def StopBangOneFlip (i₁ i₂ : StopBangInput) : Prop :=
  (i₁.snoring = false ∧ i₂ = { i₁ with snoring := true }) ∨
  (i₁.tiredness = false ∧ i₂ = { i₁ with tiredness := true }) ∨
  (i₁.observed = false ∧ i₂ = { i₁ with observed := true }) ∨
  (i₁.pressure = false ∧ i₂ = { i₁ with pressure := true })

theorem rcriClassOrd_mono {s₁ s₂ : ℕ} (h : s₁ ≤ s₂) :
    (if s₁ = 0 then RCRIClass.I else if s₁ = 1 then RCRIClass.II
      else if s₁ = 2 then RCRIClass.III else RCRIClass.IV).ord ≤
    (if s₂ = 0 then RCRIClass.I else if s₂ = 1 then RCRIClass.II
      else if s₂ = 2 then RCRIClass.III else RCRIClass.IV).ord := by
  split_ifs <;> simp only [RCRIClass.ord] <;> omega

theorem apfelRiskOrd_mono {s₁ s₂ : ℕ} (h : s₁ ≤ s₂) :
    (apfelRisk s₁).ord ≤ (apfelRisk s₂).ord := by
  unfold apfelRisk
  split_ifs <;> simp only [ApfelRisk.ord] <;> omega

theorem stopBangRiskOrd_mono {s₁ s₂ : ℕ} (h : s₁ ≤ s₂) :
    (stopBangRisk s₁).ord ≤ (stopBangRisk s₂).ord := by
  unfold stopBangRisk
  split_ifs <;> simp only [StopBangRisk.ord] <;> omega

theorem rcriScore_flip {i₁ i₂ : RCRIInput} (h : RCRIOneFlip i₁ i₂) :
    rcriScore i₂ = rcriScore i₁ + 1 := by
  rcases h with ⟨h, rfl⟩ | ⟨h, rfl⟩ | ⟨h, rfl⟩ | ⟨h, rfl⟩ | ⟨h, rfl⟩ | ⟨h, rfl⟩ <;>
    · simp [rcriScore, h]
      try omega

theorem apfelScore_flip {i₁ i₂ : ApfelScoreInput} (h : ApfelOneFlip i₁ i₂) :
    apfelScore i₂ = apfelScore i₁ + 1 := by
  rcases h with ⟨h, rfl⟩ | ⟨h, rfl⟩ | ⟨h, rfl⟩ | ⟨h, rfl⟩ <;>
    · simp [apfelScore, h]
      try omega

theorem stopBangErrors_flip {i₁ i₂ : StopBangInput} (demog : Option PatientDemographics)
    (h : StopBangOneFlip i₁ i₂) :
    stopBangErrors i₂ demog = stopBangErrors i₁ demog := by
  rcases h with ⟨-, rfl⟩ | ⟨-, rfl⟩ | ⟨-, rfl⟩ | ⟨-, rfl⟩ <;> rfl

theorem stopBangScoreOf_setS (c : StopBangComponents) (h : c.S = false) :
    stopBangScoreOf { c with S := true } = stopBangScoreOf c + 1 := by
  simp [stopBangScoreOf, h]
  omega

theorem stopBangScoreOf_setT (c : StopBangComponents) (h : c.T = false) :
    stopBangScoreOf { c with T := true } = stopBangScoreOf c + 1 := by
  simp [stopBangScoreOf, h]
  omega

theorem stopBangScoreOf_setO (c : StopBangComponents) (h : c.O = false) :
    stopBangScoreOf { c with O := true } = stopBangScoreOf c + 1 := by
  simp [stopBangScoreOf, h]
  omega

theorem stopBangScoreOf_setP (c : StopBangComponents) (h : c.P = false) :
    stopBangScoreOf { c with P := true } = stopBangScoreOf c + 1 := by
  simp [stopBangScoreOf, h]
  omega

theorem stopBangScoreOf_flip {i₁ i₂ : StopBangInput} (demog : Option PatientDemographics)
    (h : StopBangOneFlip i₁ i₂) :
    stopBangScoreOf (stopBangComponents i₂ demog) =
      stopBangScoreOf (stopBangComponents i₁ demog) + 1 := by
  rcases h with ⟨h, rfl⟩ | ⟨h, rfl⟩ | ⟨h, rfl⟩ | ⟨h, rfl⟩
  · exact stopBangScoreOf_setS (stopBangComponents i₁ demog) h
  · exact stopBangScoreOf_setT (stopBangComponents i₁ demog) h
  · exact stopBangScoreOf_setO (stopBangComponents i₁ demog) h
  · exact stopBangScoreOf_setP (stopBangComponents i₁ demog) h

/-- Claim C5: in each additive calculator (RCRI, Apfel, STOP-BANG), flipping
one boolean risk factor from false to true never decreases the score and
never lowers the risk tier. -/
theorem claim_C5 :
    (∀ i₁ i₂ : RCRIInput, RCRIOneFlip i₁ i₂ →
      (calculateRCRI i₁).score ≤ (calculateRCRI i₂).score ∧
      (calculateRCRI i₁).riskClass.ord ≤ (calculateRCRI i₂).riskClass.ord) ∧
    (∀ i₁ i₂ : ApfelScoreInput, ApfelOneFlip i₁ i₂ →
      (apfelBuild i₁).score ≤ (apfelBuild i₂).score ∧
      (apfelBuild i₁).risk.ord ≤ (apfelBuild i₂).risk.ord) ∧
    (∀ (i₁ i₂ : StopBangInput) (demog : Option PatientDemographics) (r₁ : StopBangResult),
      StopBangOneFlip i₁ i₂ → calculateStopBang i₁ demog = .ok r₁ →
      ∃ r₂, calculateStopBang i₂ demog = .ok r₂ ∧
        r₁.score ≤ r₂.score ∧ r₁.risk.ord ≤ r₂.risk.ord) := by
  refine ⟨fun i₁ i₂ h => ?_, fun i₁ i₂ h => ?_, fun i₁ i₂ demog r₁ h h₁ => ?_⟩
  · have hs := rcriScore_flip h
    rw [calculateRCRI_score, calculateRCRI_score, calculateRCRI_class, calculateRCRI_class,
      hs]
    exact ⟨by omega, rcriClassOrd_mono (by omega)⟩
  · have hs := apfelScore_flip h
    rw [apfelBuild_score, apfelBuild_score, apfelBuild_risk, apfelBuild_risk, hs]
    exact ⟨by omega, apfelRiskOrd_mono (by omega)⟩
  · have herr := stopBangErrors_flip demog h
    have he : (stopBangErrors i₁ demog).isEmpty = true := by
      by_cases he : (stopBangErrors i₁ demog).isEmpty
      · exact he
      · simp [calculateStopBang, he] at h₁
    have hok : calculateStopBang i₂ demog = .ok (stopBangBuild i₂ demog) := by
      simp [calculateStopBang, herr, he]
    have hr₁ : r₁ = stopBangBuild i₁ demog := calculateStopBang_ok_inv h₁
    have hs := stopBangScoreOf_flip demog h
    refine ⟨stopBangBuild i₂ demog, hok, ?_, ?_⟩
    · rw [hr₁, stopBangBuild_score, stopBangBuild_score, hs]
      omega
    · rw [hr₁, stopBangBuild_risk, stopBangBuild_risk, hs]
      exact stopBangRiskOrd_mono (by omega)

/-- Witness for claim C5: flipping each calculator's first factor on an
otherwise all-false input. -/
theorem claim_C5_witness :
    ((calculateRCRI ⟨false, false, false, false, false, false⟩).score ≤
      (calculateRCRI ⟨true, false, false, false, false, false⟩).score) ∧
    ((apfelBuild ⟨false, false, false, false⟩).score ≤
      (apfelBuild ⟨true, false, false, false⟩).score) ∧
    (∃ r₂, calculateStopBang
        { snoring := true, tiredness := false, observed := false, pressure := false,
          bmi := some 25, age := some 45, neckCircumference := some 38,
          gender := some .female } none = .ok r₂ ∧
      (stopBangBuild
        { snoring := false, tiredness := false, observed := false, pressure := false,
          bmi := some 25, age := some 45, neckCircumference := some 38,
          gender := some .female } none).score ≤ r₂.score ∧
      (stopBangBuild
        { snoring := false, tiredness := false, observed := false, pressure := false,
          bmi := some 25, age := some 45, neckCircumference := some 38,
          gender := some .female } none).risk.ord ≤ r₂.risk.ord) := by
  refine ⟨(claim_C5.1 _ _ (Or.inl ⟨rfl, rfl⟩)).1,
    (claim_C5.2.1 _ _ (Or.inl ⟨rfl, rfl⟩)).1, ?_⟩
  obtain ⟨r₂, hok, hsc, hord⟩ := claim_C5.2.2
    { snoring := false, tiredness := false, observed := false, pressure := false,
      bmi := some 25, age := some 45, neckCircumference := some 38,
      gender := some .female }
    { snoring := true, tiredness := false, observed := false, pressure := false,
      bmi := some 25, age := some 45, neckCircumference := some 38,
      gender := some .female } none _ (Or.inl ⟨rfl, rfl⟩) rfl
  exact ⟨r₂, hok, hsc, hord⟩

/-! ### Claim C6: strict threshold boundaries in STOP-BANG -/

/-- Claim C6: a value exactly at a STOP-BANG scoring threshold does not
count while one strictly above does: age 50 leaves component A false and 51
sets it; BMI 35 leaves B false and 35.1 sets it; neck circumference 40
leaves N false and 41 sets it. -/
theorem claim_C6 :
    ∀ (input : StopBangInput) (demog : Option PatientDemographics) (r : StopBangResult),
      calculateStopBang input demog = .ok r →
      (input.age = some 50 → r.components.A = false) ∧
      (input.age = some 51 → r.components.A = true) ∧
      (input.bmi = some 35 → r.components.B = false) ∧
      (input.bmi = some 35.1 → r.components.B = true) ∧
      (input.neckCircumference = some 40 → r.components.N = false) ∧
      (input.neckCircumference = some 41 → r.components.N = true) := by
  intro input demog r h
  rw [calculateStopBang_ok_inv h, stopBangBuild_components]
  refine ⟨fun ha => ?_, fun ha => ?_, fun hb => ?_, fun hb => ?_, fun hn => ?_, fun hn => ?_⟩
  · have h50 : sbAge input demog = some 50 := by simp [sbAge, ha, Option.orElse]
    simp only [stopBangComponents, h50]
    decide
  · have h51 : sbAge input demog = some 51 := by simp [sbAge, ha, Option.orElse]
    simp only [stopBangComponents, h51]
    decide
  · have ht : truthyNum (some (35 : ℚ)) = true := by decide
    have hb35 : sbBMI input demog = some 35 := by
      cases demog with
      | none => simp [sbBMI, hb]
      | some d => simp [sbBMI, hb, ht]
    simp only [stopBangComponents, hb35]
    decide
  · have ht : truthyNum (some (35.1 : ℚ)) = true := bne_iff_ne.mpr (by norm_num)
    have hb351 : sbBMI input demog = some 35.1 := by
      cases demog with
      | none => simp [sbBMI, hb]
      | some d => simp [sbBMI, hb, ht]
    simp only [stopBangComponents, hb351, Option.getD_some, decide_eq_true_eq]
    norm_num
  · have h40 : sbNeck input demog = some 40 := by simp [sbNeck, hn, Option.orElse]
    simp only [stopBangComponents, h40]
    decide
  · have h41 : sbNeck input demog = some 41 := by simp [sbNeck, hn, Option.orElse]
    simp only [stopBangComponents, h41]
    decide

/-- Witness for claim C6 at concrete boundary inputs. -/
theorem claim_C6_witness :
    (stopBangBuild
      { snoring := false, tiredness := false, observed := false, pressure := false,
        bmi := some 25, age := some 50, neckCircumference := some 38,
        gender := some .female } none).components.A = false ∧
    (stopBangBuild
      { snoring := false, tiredness := false, observed := false, pressure := false,
        bmi := some 25, age := some 51, neckCircumference := some 38,
        gender := some .female } none).components.A = true ∧
    (stopBangBuild
      { snoring := false, tiredness := false, observed := false, pressure := false,
        bmi := some 35, age := some 45, neckCircumference := some 38,
        gender := some .female } none).components.B = false ∧
    (stopBangBuild
      { snoring := false, tiredness := false, observed := false, pressure := false,
        bmi := some 35.1, age := some 45, neckCircumference := some 38,
        gender := some .female } none).components.B = true ∧
    (stopBangBuild
      { snoring := false, tiredness := false, observed := false, pressure := false,
        bmi := some 25, age := some 45, neckCircumference := some 40,
        gender := some .female } none).components.N = false ∧
    (stopBangBuild
      { snoring := false, tiredness := false, observed := false, pressure := false,
        bmi := some 25, age := some 45, neckCircumference := some 41,
        gender := some .female } none).components.N = true := by
  have hbmi : calculateStopBang
      { snoring := false, tiredness := false, observed := false, pressure := false,
        bmi := some 35.1, age := some 45, neckCircumference := some 38,
        gender := some .female } none = .ok (stopBangBuild
      { snoring := false, tiredness := false, observed := false, pressure := false,
        bmi := some 35.1, age := some 45, neckCircumference := some 38,
        gender := some .female } none) := by
    have he : (stopBangErrors
        { snoring := false, tiredness := false, observed := false, pressure := false,
          bmi := some 35.1, age := some 45, neckCircumference := some 38,
          gender := some .female } none).isEmpty = true := by
      norm_num [stopBangErrors, validateAge, validateBMI, sbAge, sbBMI, sbGender,
        Option.orElse]
      exact Option.some_ne_none _
    simp [calculateStopBang, he]
  have k1 := claim_C6
    { snoring := false, tiredness := false, observed := false, pressure := false,
      bmi := some 25, age := some 50, neckCircumference := some 38,
      gender := some .female } none
    (stopBangBuild
      { snoring := false, tiredness := false, observed := false, pressure := false,
        bmi := some 25, age := some 50, neckCircumference := some 38,
        gender := some .female } none) rfl
  have k2 := claim_C6
    { snoring := false, tiredness := false, observed := false, pressure := false,
      bmi := some 25, age := some 51, neckCircumference := some 38,
      gender := some .female } none
    (stopBangBuild
      { snoring := false, tiredness := false, observed := false, pressure := false,
        bmi := some 25, age := some 51, neckCircumference := some 38,
        gender := some .female } none) rfl
  have k3 := claim_C6
    { snoring := false, tiredness := false, observed := false, pressure := false,
      bmi := some 35, age := some 45, neckCircumference := some 38,
      gender := some .female } none
    (stopBangBuild
      { snoring := false, tiredness := false, observed := false, pressure := false,
        bmi := some 35, age := some 45, neckCircumference := some 38,
        gender := some .female } none) rfl
  have k4 := claim_C6 _ none _ hbmi
  have k5 := claim_C6
    { snoring := false, tiredness := false, observed := false, pressure := false,
      bmi := some 25, age := some 45, neckCircumference := some 40,
      gender := some .female } none
    (stopBangBuild
      { snoring := false, tiredness := false, observed := false, pressure := false,
        bmi := some 25, age := some 45, neckCircumference := some 40,
        gender := some .female } none) rfl
  have k6 := claim_C6
    { snoring := false, tiredness := false, observed := false, pressure := false,
      bmi := some 25, age := some 45, neckCircumference := some 41,
      gender := some .female } none
    (stopBangBuild
      { snoring := false, tiredness := false, observed := false, pressure := false,
        bmi := some 25, age := some 45, neckCircumference := some 41,
        gender := some .female } none) rfl
  exact ⟨k1.1 rfl, k2.2.1 rfl, k3.2.2.1 rfl, k4.2.2.2.1 rfl, k5.2.2.2.2.1 rfl,
    k6.2.2.2.2.2 rfl⟩

/-! ### Claim C9: the high-risk surgery classifier -/

/-- Claim C9: isHighRiskSurgery is true exactly when some fixed keyword
occurs as a substring of the lower-cased description (substring, not
whole-word); hence ESOPHAGECTOMY (any case) is high risk, cataract surgery
is not, and the result only depends on the lower-cased argument. -/
theorem claim_C9 :
    (∀ s : String, isHighRiskSurgery s = true ↔
      ∃ kw ∈ highRiskKeywords, kw.data <:+: (strToLower s).data) ∧
    isHighRiskSurgery "ESOPHAGECTOMY" = true ∧
    isHighRiskSurgery "cataract surgery" = false ∧
    (∀ s t : String, strToLower s = strToLower t →
      isHighRiskSurgery s = isHighRiskSurgery t) := by
  refine ⟨fun s => ?_, by decide, by decide, fun s t h => ?_⟩
  · simp only [isHighRiskSurgery, List.any_eq_true, containsSubstr_iff]
  · simp only [isHighRiskSurgery, h]

/-- Witness for claim C9: the case-invariance hypothesis discharged at the
upper- and lower-case spellings of esophagectomy. -/
theorem claim_C9_witness :
    isHighRiskSurgery "ESOPHAGECTOMY" = isHighRiskSurgery "esophagectomy" :=
  claim_C9.2.2.2 "ESOPHAGECTOMY" "esophagectomy" (by decide)

/-! ### Claim C10: neck circumference is silently optional -/

/-- Claim C10: with a valid age, a valid BMI source and a gender, STOP-BANG
succeeds with no neck circumference supplied anywhere; component N is then
false and contributes 0 to the score; and no validation is ever performed
on a supplied neck circumference (the error list ignores the field
entirely). -/
theorem claim_C10 :
    (∀ (input : StopBangInput) (demog : Option PatientDemographics),
      (validateAge (sbAge input demog)).errors = [] →
      (validateBMI (sbBMI input demog) (demog.map (·.weight))
        (demog.map (·.height))).errors = [] →
      (sbGender input demog).isSome = true →
      input.neckCircumference = none → demog.bind (·.neckCircumference) = none →
      ∃ r, calculateStopBang input demog = .ok r ∧ r.components.N = false ∧
        r.score =
          (if r.components.S then 1 else 0) + (if r.components.T then 1 else 0) +
          (if r.components.O then 1 else 0) + (if r.components.P then 1 else 0) +
          (if r.components.B then 1 else 0) + (if r.components.A then 1 else 0) +
          0 + (if r.components.G then 1 else 0)) ∧
    (∀ (input : StopBangInput) (demog : Option PatientDemographics) (v : ℚ),
      stopBangErrors { input with neckCircumference := some v } demog =
        stopBangErrors input demog) := by
  constructor
  · intro input demog hage hbmi hg hn₁ hn₂
    have hneck : sbNeck input demog = none := by
      simp [sbNeck, hn₁, hn₂, Option.orElse]
    have herr : stopBangErrors input demog = [] := by
      rw [Option.isSome_iff_exists] at hg
      obtain ⟨g, hg⟩ := hg
      simp [stopBangErrors, hage, hbmi, hg]
    have hok : calculateStopBang input demog = .ok (stopBangBuild input demog) := by
      simp [calculateStopBang, herr]
    have hN : (stopBangComponents input demog).N = false := by
      simp [stopBangComponents, hneck, truthyNum]
    refine ⟨stopBangBuild input demog, hok, ?_, ?_⟩
    · rw [stopBangBuild_components]
      exact hN
    · rw [stopBangBuild_score, stopBangBuild_components, stopBangScoreOf, hN]
      simp
  · intro input demog v
    rfl

/-- Witness for claim C10 at a concrete neck-free input. -/
theorem claim_C10_witness :
    ∃ r, calculateStopBang
        { snoring := true, tiredness := false, observed := false, pressure := false,
          bmi := some 25, age := some 45, neckCircumference := none,
          gender := some .female } none = .ok r ∧ r.components.N = false ∧
      r.score =
        (if r.components.S then 1 else 0) + (if r.components.T then 1 else 0) +
        (if r.components.O then 1 else 0) + (if r.components.P then 1 else 0) +
        (if r.components.B then 1 else 0) + (if r.components.A then 1 else 0) +
        0 + (if r.components.G then 1 else 0) :=
  claim_C10.1
    { snoring := true, tiredness := false, observed := false, pressure := false,
      bmi := some 25, age := some 45, neckCircumference := none,
      gender := some .female } none rfl rfl rfl rfl rfl

/-! ### Claim C3: error codes -/

/-- Claim C3 counterexample: a missing bilirubin (undefined) and a
wrong-kind bilirubin (a string) are two different failure kinds, yet
calculateMELDScore surfaces the identical error value for both, and that
error carries no code at all — so the surfaced error does not identify
which failure kind occurred by a machine-readable code. -/
theorem claim_C3_counterexample :
    calculateMELDScore (some ⟨.undefined, .num 1, .num 1, .undefined⟩) =
      .error { message := "Invalid bilirubin: must be a positive number in mg/dL" } ∧
    calculateMELDScore (some ⟨.str "2.5", .num 1, .num 1, .undefined⟩) =
      .error { message := "Invalid bilirubin: must be a positive number in mg/dL" } ∧
    ({ message := "Invalid bilirubin: must be a positive number in mg/dL" } :
      CalculatorException).code = none :=
  ⟨rfl, rfl, rfl⟩

/-- Claim C3 amended: the STOP-BANG helper validators do attach distinct
machine-readable codes per failure kind (AGE_REQUIRED, AGE_TOO_LOW,
AGE_INVALID, BMI_CALCULATION_ERROR, BMI_INVALID, GENDER_REQUIRED), but the
errors surfaced to callers do not distinguish the four failure kinds by
code: every CalculatorError thrown by MELD or Apfel validation carries
code = none (only a message), and the STOP-BANG calculator throws a plain
Error whose message is the joined validation messages with the codes
discarded. -/
theorem claim_C3_amended :
    (∀ (input : Option MELDRawInput) (e : CalculatorException),
      validateMELDInput input = some e → e.code = none) ∧
    (∀ (input : Option ApfelRawInput) (e : CalculatorException),
      validateApfelInput input = some e → e.code = none) ∧
    ((validateAge none).errors.map (·.code) = ["AGE_REQUIRED"]) ∧
    (∀ a : ℚ, a < 18 → (validateAge (some a)).errors.map (·.code) = ["AGE_TOO_LOW"]) ∧
    (∀ a : ℚ, 120 < a → (validateAge (some a)).errors.map (·.code) = ["AGE_INVALID"]) ∧
    (∀ w h : Option ℚ, w = none ∨ h = none →
      (validateBMI none w h).errors.map (·.code) = ["BMI_CALCULATION_ERROR"]) ∧
    (∀ (b : ℚ) (w h : Option ℚ), b < 10 ∨ 70 < b →
      (validateBMI (some b) w h).errors.map (·.code) = ["BMI_INVALID"]) ∧
    (∀ (input : StopBangInput) (demog : Option PatientDemographics) (msg : String),
      calculateStopBang input demog = .error msg →
      msg = "Validation errors: " ++
        String.intercalate ", " ((stopBangErrors input demog).map (·.message))) := by
  refine ⟨fun input e h => ?_, fun input e h => ?_, rfl, fun a ha => ?_, fun a ha => ?_,
    fun w h hwh => ?_, fun b w h hb => ?_, fun input demog msg h => ?_⟩
  · cases input with
    | none =>
      unfold validateMELDInput at h
      cases Option.some.inj h
      rfl
    | some i =>
      unfold validateMELDInput at h
      dsimp only at h
      split_ifs at h <;> first | (cases Option.some.inj h; rfl) | simp at h
  · cases input with
    | none =>
      unfold validateApfelInput at h
      cases Option.some.inj h
      rfl
    | some i =>
      unfold validateApfelInput at h
      dsimp only at h
      split_ifs at h <;> first | (cases Option.some.inj h; rfl) | simp at h
  · simp [validateAge, ha]
  · simp [validateAge, show ¬(a < 18) from by linarith, ha]
  · simp [validateBMI, hwh]
  · simp [validateBMI, hb]
  · exact calculateStopBang_error_inv h

/-- Witness for claim C3 amended: the MELD error at a concrete bad input
carries no code; AGE_TOO_LOW at age 10; BMI_INVALID at BMI 5; and the
error thrown by STOP-BANG for the empty input is exactly the joined
messages. -/
theorem claim_C3_witness :
    ({ message := "Invalid bilirubin: must be a positive number in mg/dL" } :
      CalculatorException).code = none ∧
    (validateAge (some 10)).errors.map (·.code) = ["AGE_TOO_LOW"] ∧
    (validateBMI (some 5) none none).errors.map (·.code) = ["BMI_INVALID"] ∧
    ("Validation errors: Age is required, Either BMI or both weight and height must be provided, Gender is required for STOP-BANG calculation" : String) =
      "Validation errors: " ++ String.intercalate ", "
        ((stopBangErrors
          { snoring := false, tiredness := false, observed := false, pressure := false }
          none).map (·.message)) :=
  ⟨claim_C3_amended.1 (some ⟨.undefined, .num 1, .num 1, .undefined⟩) _ rfl,
   claim_C3_amended.2.2.2.1 10 (by norm_num),
   claim_C3_amended.2.2.2.2.2.2.1 5 none none (Or.inl (by norm_num)),
   claim_C3_amended.2.2.2.2.2.2.2
     { snoring := false, tiredness := false, observed := false, pressure := false }
     none _ rfl⟩

/-! ### Claim C7: interpretation sentences -/

theorem calculateRCRI_estRisk (input : RCRIInput) :
    (calculateRCRI input).estimatedRisk =
      (if rcriScore input = 0 then "0.4%" else if rcriScore input = 1 then "0.9%"
        else if rcriScore input = 2 then "6.6%" else "≥11%") := by
  simp [calculateRCRI]

theorem meldInterpretation_shape (s : ℤ) (r : MELDRisk) (p : ℚ) :
    meldInterpretation s r p =
      "MELD score of " ++ toString s ++ " indicates " ++ r.desc ++
        " risk of 3-month mortality (" ++ jsNumToString p ++
        "%). This score is used to assess liver disease severity and perioperative risk in patients with end-stage liver disease." :=
  rfl

/-- Claim C7 counterexample: MELD in the moderate tier (for example
bilirubin=1, creatinine=1, INR=2, score 14): the tier's published
percentage string is "6.0%", but the interpretation renders the number 6.0
as "6" and so contains "(6%)" and not "6.0%". -/
theorem claim_C7_counterexample :
    ∃ r, calculateMELDScore (some ⟨.num 1, .num 1, .num 2, .bool false⟩) = .ok r ∧
      r.risk = .moderate ∧ r.mortalityRisk = "6.0%" ∧
      containsSubstr r.interpretation "6.0%" = false ∧
      containsSubstr r.interpretation "6%" = true := by
  have hv : validateMELDInput (some ⟨.num 1, .num 1, .num 2, .bool false⟩) = none :=
    validateMELDInput_none (by norm_num) (by norm_num) (by norm_num) (by norm_num)
      (by norm_num) (by norm_num) (Or.inr rfl)
  have hsc : (meldBuild ⟨.num 1, .num 1, .num 2, .bool false⟩).score = 14 := by
    rw [meldBuild_score]
    simpa [JSValue.numVal, JSValue.truthy] using meldFinalScore_inr_2
  have hrisk : (meldBuild ⟨.num 1, .num 1, .num 2, .bool false⟩).risk = .moderate := by
    rw [meldBuild_risk, hsc]
    rfl
  have hpct : (meldBuild ⟨.num 1, .num 1, .num 2, .bool false⟩).mortalityPercentage = 6.0 := by
    rw [meldBuild_pct, hsc]
    rfl
  have hmr : (meldBuild ⟨.num 1, .num 1, .num 2, .bool false⟩).mortalityRisk = "6.0%" := by
    rw [meldBuild_mortalityRisk, hsc]
    rfl
  have h6 : (6.0 : ℚ) = 6 := by norm_num
  have hint : (meldBuild ⟨.num 1, .num 1, .num 2, .bool false⟩).interpretation =
      meldInterpretation 14 .moderate 6 := by
    rw [meldBuild_interpretation, hsc, hrisk, hpct, h6]
  refine ⟨meldBuild _, calculateMELDScore_eq_ok _ hv, hrisk, hmr, ?_, ?_⟩
  · rw [hint]
    decide
  · rw [hint]
    decide

/-- Claim C7 amended: every interpretation sentence contains the literal
score and a tier-describing word; RCRI and Apfel interpretations also
contain the published percentage string, but MELD interpolates the
percentage number into the sentence (template rendering jsNumToString), so
its moderate tier shows "6%" although the published string is "6.0%". -/
theorem claim_C7_amended :
    (∀ input : RCRIInput,
      containsSubstr (calculateRCRI input).interpretation
        (toString (calculateRCRI input).score) = true ∧
      containsSubstr (calculateRCRI input).interpretation
        ("Class " ++ (calculateRCRI input).riskClass.str) = true ∧
      containsSubstr (calculateRCRI input).interpretation
        (calculateRCRI input).estimatedRisk = true) ∧
    (∀ (input : StopBangInput) (demog : Option PatientDemographics) (r : StopBangResult),
      calculateStopBang input demog = .ok r →
      containsSubstr r.interpretation (toString r.score) = true ∧
      containsSubstr r.interpretation r.risk.str = true) ∧
    (∀ (raw : Option ApfelRawInput) (r : ApfelScoreResult), calculateApfelScore raw = .ok r →
      containsSubstr r.interpretation (toString r.score) = true ∧
      containsSubstr r.interpretation r.risk.desc = true ∧
      containsSubstr r.interpretation (jsNumToString r.riskPercentage ++ "%") = true) ∧
    (∀ (i : MELDRawInput) (r : MELDScoreResult), calculateMELDScore (some i) = .ok r →
      containsSubstr r.interpretation (toString r.score) = true ∧
      containsSubstr r.interpretation r.risk.desc = true ∧
      containsSubstr r.interpretation (jsNumToString r.mortalityPercentage ++ "%") = true) := by
  refine ⟨fun input => ?_, fun input demog r h => ?_, fun raw r h => ?_, fun i r h => ?_⟩
  · rw [calculateRCRI_interpretation, calculateRCRI_score, calculateRCRI_class,
      calculateRCRI_estRisk]
    have hs6 : rcriScore input ≤ 6 := rcriScore_le input
    generalize rcriScore input = s at hs6 ⊢
    interval_cases s <;> exact ⟨by decide, by decide, by decide⟩
  · rw [calculateStopBang_ok_inv h, stopBangBuild_interpretation, stopBangBuild_score,
      stopBangBuild_risk]
    have hs8 := stopBangScoreOf_le (stopBangComponents input demog)
    generalize stopBangScoreOf (stopBangComponents input demog) = s at hs8 ⊢
    interval_cases s <;> exact ⟨by decide, by decide⟩
  · obtain ⟨j, -, -, hr⟩ := calculateApfelScore_ok_inv h
    rw [hr, apfelBuild_interpretation, apfelBuild_score, apfelBuild_risk, apfelBuild_pct]
    have hs4 := apfelScore_le j.resolve
    generalize apfelScore j.resolve = s at hs4 ⊢
    interval_cases s <;> exact ⟨by decide, by decide, by decide⟩
  · obtain ⟨-, hr⟩ := calculateMELDScore_ok_inv h
    rw [hr, meldBuild_interpretation, meldInterpretation_shape]
    refine ⟨?_, ?_, ?_⟩
    · exact contains_right _ (contains_right _ (contains_right _ (contains_right _
        (contains_right _ (contains_left "MELD score of "
          (contains_self (toString (meldBuild i).score)))))))
    · exact contains_right _ (contains_right _ (contains_right _
        (contains_left _ (contains_self (meldBuild i).risk.desc))))
    · have hsplit :
          ("%). This score is used to assess liver disease severity and perioperative risk in patients with end-stage liver disease." : String) =
          "%" ++ "). This score is used to assess liver disease severity and perioperative risk in patients with end-stage liver disease." := by
        decide
      rw [hsplit, ← String.append_assoc, String.append_assoc _
        (jsNumToString (meldBuild i).mortalityPercentage) "%"]
      exact contains_right _ (contains_left _
        (contains_self (jsNumToString (meldBuild i).mortalityPercentage ++ "%")))

/-- Witness for claim C7 amended at one concrete valid input per
calculator with a result hypothesis. -/
theorem claim_C7_witness :
    containsSubstr (stopBangBuild
      { snoring := false, tiredness := false, observed := false, pressure := false,
        bmi := some 25, age := some 45, neckCircumference := some 38,
        gender := some .female } none).interpretation "low" = true ∧
    containsSubstr (apfelBuild (ApfelRawInput.resolve
      ⟨.bool true, .bool false, .bool false, .bool false⟩)).interpretation "21%" = true ∧
    containsSubstr (meldBuild ⟨.num 1, .num 1, .num 1, .undefined⟩).interpretation
      (jsNumToString
        (meldBuild ⟨.num 1, .num 1, .num 1, .undefined⟩).mortalityPercentage ++ "%") =
      true := by
  have hv : validateMELDInput (some ⟨.num 1, .num 1, .num 1, .undefined⟩) = none :=
    validateMELDInput_none (by norm_num) (by norm_num) (by norm_num) (by norm_num)
      (by norm_num) (by norm_num) (Or.inl rfl)
  have h1 := claim_C7_amended.2.1
    { snoring := false, tiredness := false, observed := false, pressure := false,
      bmi := some 25, age := some 45, neckCircumference := some 38,
      gender := some .female } none
    (stopBangBuild
      { snoring := false, tiredness := false, observed := false, pressure := false,
        bmi := some 25, age := some 45, neckCircumference := some 38,
        gender := some .female } none) rfl
  have h2 := claim_C7_amended.2.2.1
    (some ⟨.bool true, .bool false, .bool false, .bool false⟩)
    (apfelBuild (ApfelRawInput.resolve
      ⟨.bool true, .bool false, .bool false, .bool false⟩)) rfl
  have h3 := claim_C7_amended.2.2.2 ⟨.num 1, .num 1, .num 1, .undefined⟩ _
    (calculateMELDScore_eq_ok _ hv)
  refine ⟨?_, ?_, h3.2.2⟩
  · have := h1.2
    simpa using this
  · have := h2.2.2
    simpa using this

end Periop
